import Mathlib

/-!
Verification of the flint C++ linter (facebookarchive/flint).

This file gives a shallow embedding, in Lean 4, of the lexer
(`src/flint/Tokenizer.cpp`), the token-stream navigation primitives and a
set of check rules (`src/flint/Checks.cpp`, with the parallel
implementations of `src/cxx/Checks.cpp` where a claim refers to them), the
diagnostic sink (`src/flint/ErrorReport.hpp`), the file categorizer
(`src/flint/FileCategories.cpp`) and the per-file driver control flow
(`src/flint/Main.cpp`), together with theorems settling the specification
claims about them.

Modelling conventions, applied uniformly:
- C++ `std::string` values are `List Char`; a read one past the end of a
  string buffer yields the NUL terminator, so `charAt` returns `'\x00'`
  out of range (the code relies on this sentinel to stop its scans).
- Token streams are `List Token`; `tokAt` models `vector<Token>` indexing
  with the `TK_EOF` sentinel for an out-of-range read, which is the
  convention the iterator-based cxx code relies on.
- C++ exceptions (`throw runtime_error`) are `Except String`; `assert`
  statements (compiled out in release builds, and satisfied at every call
  site exercised here) are not modelled as failures.
- `isalpha`/`isdigit`/`isalnum`/`iscntrl` are modelled as their ASCII
  meaning.
- The main tokenizer loop advances by at least one character per
  iteration, so it is written with a fuel counter of `length + 2`, which
  is sufficient for every terminating run of the C++ loop.
-/

namespace Flint

/-- TokenType, the closed enumeration from `src/flint/Tokenizer.hpp`
(`CPPLINT_FOR_ALL_TOKENS`): keywords, punctuators, literals, preprocessor
directives, identifier, end-of-file. -/
inductive TokenType : Type
  | TK_AUTO | TK_CONST | TK_CONSTEXPR | TK_DOUBLE | TK_FLOAT | TK_INT
  | TK_SHORT | TK_STRUCT | TK_UNSIGNED | TK_BREAK | TK_CONTINUE | TK_ELSE
  | TK_FOR | TK_LONG | TK_SIGNED | TK_SWITCH | TK_VOID | TK_CASE
  | TK_DEFAULT | TK_ENUM | TK_GOTO | TK_REGISTER | TK_SIZEOF | TK_TYPEDEF
  | TK_VOLATILE | TK_CHAR | TK_DO | TK_EXTERN | TK_IF | TK_RETURN
  | TK_STATIC | TK_UNION | TK_WHILE | TK_ASM | TK_DYNAMIC_CAST
  | TK_NAMESPACE | TK_REINTERPRET_CAST | TK_TRY | TK_BOOL | TK_EXPLICIT
  | TK_NEW | TK_STATIC_CAST | TK_TYPEID | TK_CATCH | TK_FALSE
  | TK_OPERATOR | TK_TEMPLATE | TK_TYPENAME | TK_CLASS | TK_FRIEND
  | TK_PRIVATE | TK_THIS | TK_USING | TK_CONST_CAST | TK_INLINE
  | TK_PUBLIC | TK_THROW | TK_VIRTUAL | TK_DELETE | TK_MUTABLE
  | TK_PROTECTED | TK_TRUE | TK_WCHAR_T | TK_AND | TK_BITAND | TK_COMPL
  | TK_NOT_EQ_CLEARTEXT | TK_OR_EQ | TK_XOR_ASSIGN_CLEARTEXT | TK_AND_EQ
  | TK_BITOR | TK_NOT_CLEARTEXT | TK_OR | TK_XOR_CLEARTEXT
  | TK_TILDE | TK_LPAREN | TK_RPAREN | TK_LSQUARE | TK_RSQUARE | TK_LCURL
  | TK_RCURL | TK_SEMICOLON | TK_COMMA | TK_QUESTION
  | TK_COLON | TK_DOUBLE_COLON | TK_REMAINDER | TK_REMAINDER_ASSIGN
  | TK_ASSIGN | TK_EQUAL_TO | TK_NOT | TK_NOT_ASSIGN | TK_XOR
  | TK_XOR_ASSIGN | TK_STAR | TK_STAR_ASSIGN
  | TK_PLUS | TK_INCREMENT | TK_PLUS_ASSIGN | TK_AMPERSAND
  | TK_LOGICAL_AND | TK_AND_ASSIGN | TK_BINARY_OR | TK_LOGICAL_OR
  | TK_OR_ASSIGN
  | TK_LESS | TK_LESS_EQUAL | TK_LSHIFT | TK_LSHIFT_ASSIGN
  | TK_GREATER | TK_GREATER_EQUAL | TK_RSHIFT | TK_RSHIFT_ASSIGN
  | TK_DIVIDE | TK_DIVIDE_ASSIGN | TK_MINUS | TK_MINUS_ASSIGN
  | TK_DECREMENT | TK_ARROW | TK_ARROW_STAR | TK_DOT | TK_ELLIPSIS
  | TK_DOT_STAR
  | TK_IDENTIFIER | TK_NUMBER | TK_CHAR_LITERAL | TK_STRING_LITERAL
  | TK_INCLUDE | TK_POUNDIF | TK_IFDEF | TK_IFNDEF | TK_UNDEF | TK_POUND
  | TK_DOUBLEPOUND | TK_POUNDELSE | TK_ENDIF | TK_PRAGMA | TK_ERROR
  | TK_HASHLINE | TK_DEFINE | TK_EOF
  deriving DecidableEq, Repr

open TokenType

/-- Token from `src/flint/Tokenizer.hpp`: a kind, the lexeme (`value_`),
the preceding trivia (`precedingWhitespace_`: whitespace and comments
accumulated since the previous token) and the line number. -/
structure Token : Type where
  type_ : TokenType
  value_ : List Char
  precedingWhitespace_ : List Char
  line_ : Nat
  deriving DecidableEq, Repr

/-- Sentinel NUL character: reading one past the end of a C++
`std::string` buffer yields the terminator. -/
def nulChar : Char := Char.ofNat 0

/-- Reading character `i` of a string buffer; out of range yields the NUL
terminator. -/
def charAt (l : List Char) (i : Nat) : Char := l.getD i nulChar

/-- ASCII model of C `isdigit`. -/
def isDigitA (c : Char) : Bool := 0x30 ≤ c.toNat && c.toNat ≤ 0x39

/-- ASCII model of C `isalpha`. -/
def isAlphaA (c : Char) : Bool :=
  (0x41 ≤ c.toNat && c.toNat ≤ 0x5a) || (0x61 ≤ c.toNat && c.toNat ≤ 0x7a)

/-- ASCII model of C `isalnum`. -/
def isAlnumA (c : Char) : Bool := isAlphaA c || isDigitA c

/-- ASCII model of C `iscntrl`. -/
def isCntrlA (c : Char) : Bool := c.toNat < 0x20 || c.toNat == 0x7f

/-- Character class accepted inside an identifier by `munchIdentifier`
(`Tokenizer.cpp`): alphanumeric, underscore, `$` or `@`. -/
def isIdentChar (c : Char) : Bool :=
  isAlnumA c || c = '_' || c = '$' || c = '@'

/-- Keyword table from `CPPLINT_FORALL_KEYWORDS` in
`src/flint/Tokenizer.hpp`: maps e.g. "virtual" to `TK_VIRTUAL`. -/
def keywords : List (List Char × TokenType) := [
  ("auto".toList, TK_AUTO), ("const".toList, TK_CONST),
  ("constexpr".toList, TK_CONSTEXPR), ("double".toList, TK_DOUBLE),
  ("float".toList, TK_FLOAT), ("int".toList, TK_INT),
  ("short".toList, TK_SHORT), ("struct".toList, TK_STRUCT),
  ("unsigned".toList, TK_UNSIGNED), ("break".toList, TK_BREAK),
  ("continue".toList, TK_CONTINUE), ("else".toList, TK_ELSE),
  ("for".toList, TK_FOR), ("long".toList, TK_LONG),
  ("signed".toList, TK_SIGNED), ("switch".toList, TK_SWITCH),
  ("void".toList, TK_VOID), ("case".toList, TK_CASE),
  ("default".toList, TK_DEFAULT), ("enum".toList, TK_ENUM),
  ("goto".toList, TK_GOTO), ("register".toList, TK_REGISTER),
  ("sizeof".toList, TK_SIZEOF), ("typedef".toList, TK_TYPEDEF),
  ("volatile".toList, TK_VOLATILE), ("char".toList, TK_CHAR),
  ("do".toList, TK_DO), ("extern".toList, TK_EXTERN),
  ("if".toList, TK_IF), ("return".toList, TK_RETURN),
  ("static".toList, TK_STATIC), ("union".toList, TK_UNION),
  ("while".toList, TK_WHILE), ("asm".toList, TK_ASM),
  ("dynamic_cast".toList, TK_DYNAMIC_CAST),
  ("namespace".toList, TK_NAMESPACE),
  ("reinterpret_cast".toList, TK_REINTERPRET_CAST),
  ("try".toList, TK_TRY), ("bool".toList, TK_BOOL),
  ("explicit".toList, TK_EXPLICIT), ("new".toList, TK_NEW),
  ("static_cast".toList, TK_STATIC_CAST), ("typeid".toList, TK_TYPEID),
  ("catch".toList, TK_CATCH), ("false".toList, TK_FALSE),
  ("operator".toList, TK_OPERATOR), ("template".toList, TK_TEMPLATE),
  ("typename".toList, TK_TYPENAME), ("class".toList, TK_CLASS),
  ("friend".toList, TK_FRIEND), ("private".toList, TK_PRIVATE),
  ("this".toList, TK_THIS), ("using".toList, TK_USING),
  ("const_cast".toList, TK_CONST_CAST), ("inline".toList, TK_INLINE),
  ("public".toList, TK_PUBLIC), ("throw".toList, TK_THROW),
  ("virtual".toList, TK_VIRTUAL), ("delete".toList, TK_DELETE),
  ("mutable".toList, TK_MUTABLE), ("protected".toList, TK_PROTECTED),
  ("true".toList, TK_TRUE), ("wchar_t".toList, TK_WCHAR_T),
  ("and".toList, TK_AND), ("bitand".toList, TK_BITAND),
  ("compl".toList, TK_COMPL), ("not_eq".toList, TK_NOT_EQ_CLEARTEXT),
  ("or_eq".toList, TK_OR_EQ), ("xor_eq".toList, TK_XOR_ASSIGN_CLEARTEXT),
  ("and_eq".toList, TK_AND_EQ), ("bitor".toList, TK_BITOR),
  ("not".toList, TK_NOT_CLEARTEXT), ("or".toList, TK_OR),
  ("xor".toList, TK_XOR_CLEARTEXT)]

/-- Hex digit letters accepted by `munchNumber` (`strchr("AaBbCcDdEeFf", c)`). -/
def isHexLetter (c : Char) : Bool := ("AaBbCcDdEeFf".toList).contains c

/-- Exponent markers (`strchr("EePp", c)`). -/
def isExpMarker (c : Char) : Bool := ("EePp".toList).contains c

/-- Numeric suffix letters (`strchr("FfLlUu", c)`). -/
def isSuffixLetter (c : Char) : Bool := ("FfLlUu".toList).contains c

/-- Length of the run of horizontal spaces/tabs at the head of `l`
(`munchSpaces` in `Tokenizer.cpp`). -/
def munchSpacesCount (l : List Char) : Nat :=
  (l.takeWhile fun c => c = ' ' || c = '\t').length

/-- The `startsWith(string::const_iterator, const char *)` polyfill from
`src/flint/Polyfill.cpp`: compares the prefix characters one by one
against the buffer starting at `i`. -/
def startsWithFrom (l : List Char) (i : Nat) : List Char → Bool
  | [] => true
  | p :: ps => (charAt l i = p) && startsWithFrom l (i + 1) ps

/-- The `munchIdentifier` scan from `Tokenizer.cpp`: takes the maximal run
of identifier characters; an empty run before a non-identifier character
is the "Invalid identifier" error. Returns the number of characters
consumed. -/
def munchIdentifier (l : List Char) : Except String Nat :=
  let pre := (l.takeWhile isIdentChar).length
  if pre = l.length then pure l.length
  else if pre = 0 then throw "Invalid identifier"
  else pure pre

/-- Loop of `munchComment` from `Tokenizer.cpp`, scanning from offset `i`
(the function starts at 2, past the opening slash-star) for the closing
star-slash, counting newlines; a NUL (end of input) is the "Unterminated
comment" error. Returns (characters consumed, updated line). -/
def munchCommentGo (l : List Char) (fuel i line : Nat) :
    Except String (Nat × Nat) :=
  match fuel with
  | 0 => throw "Unterminated comment"
  | fuel + 1 =>
    if charAt l i = '\n' then munchCommentGo l fuel (i + 1) (line + 1)
    else if charAt l i = '*' then
      if charAt l (i + 1) = '/' then pure (i + 2, line)
      else munchCommentGo l fuel (i + 1) line
    else if charAt l i = nulChar then throw "Unterminated comment"
    else munchCommentGo l fuel (i + 1) line

/-- The `munchComment` entry point: assumes the buffer starts with
slash-star and scans from offset 2. -/
def munchComment (l : List Char) (line : Nat) : Except String (Nat × Nat) :=
  munchCommentGo l (l.length + 2) 2 line

/-- Loop of `munchSingleLineComment` from `Tokenizer.cpp`: bounded by the
input end, stops after a newline not preceded by a backslash (the
backslash continues the comment onto the next line, still counting it). -/
def munchSLCGo (l : List Char) (fuel i line : Nat) : Nat × Nat :=
  match fuel with
  | 0 => (l.length, line)
  | fuel + 1 =>
    if i < l.length then
      if charAt l i = '\n' then
        if charAt l (i - 1) = '\\' then munchSLCGo l fuel (i + 1) (line + 1)
        else (i + 1, line + 1)
      else munchSLCGo l fuel (i + 1) line
    else (l.length, line)

/-- The `munchSingleLineComment` entry point: starts at offset 2, past the
two slashes. -/
def munchSingleLineComment (l : List Char) (line : Nat) : Nat × Nat :=
  munchSLCGo l (l.length + 2) 2 line

/-- Loop of `munchNumber` from `Tokenizer.cpp`: maximal-munch scan of a
numeric literal with dot/exponent/hex/suffix state flags; a sign is
consumed only right after an exponent marker. Returns the number of
characters consumed. -/
def munchNumberGo (l : List Char) (fuel i : Nat)
    (sawDot sawExp sawX sawSuffix : Bool) : Except String Nat :=
  match fuel with
  | 0 => throw "Invalid number"
  | fuel + 1 =>
    if charAt l i = '.' ∧ !sawDot ∧ !sawExp ∧ !sawSuffix then
      munchNumberGo l fuel (i + 1) true sawExp sawX sawSuffix
    else if isDigitA (charAt l i) then
      munchNumberGo l fuel (i + 1) sawDot sawExp sawX sawSuffix
    else if sawX ∧ !sawExp ∧ charAt l i ≠ nulChar ∧ isHexLetter (charAt l i) then
      munchNumberGo l fuel (i + 1) sawDot sawExp sawX sawSuffix
    else if charAt l i = '+' ∨ charAt l i = '-' then
      if 0 < i ∧ ¬ isExpMarker (charAt l (i - 1)) then pure i
      else munchNumberGo l fuel (i + 1) sawDot sawExp sawX sawSuffix
    else if !sawExp ∧ !sawSuffix ∧ !sawX ∧ (charAt l i = 'e' ∨ charAt l i = 'E') then
      munchNumberGo l fuel (i + 1) sawDot true sawX sawSuffix
    else if sawX ∧ !sawExp ∧ !sawSuffix ∧ (charAt l i = 'p' ∨ charAt l i = 'P') then
      munchNumberGo l fuel (i + 1) sawDot true sawX sawSuffix
    else if (charAt l i = 'x' ∨ charAt l i = 'X') ∧ i = 1 ∧ charAt l 0 = '0' then
      munchNumberGo l fuel (i + 1) sawDot sawExp true sawSuffix
    else if charAt l i ≠ nulChar ∧ isSuffixLetter (charAt l i) then
      munchNumberGo l fuel (i + 1) sawDot sawExp sawX true
    else if 0 < i then pure i
    else throw "Invalid number"

/-- The `munchNumber` entry point: all state flags start false. -/
def munchNumber (l : List Char) : Except String Nat :=
  munchNumberGo l (l.length + 2) 0 false false false false

/-- Shared loop of `munchString`/`munchCharLiteral` from `Tokenizer.cpp`:
scans from offset `i` for the unescaped closing delimiter, counting
escaped newlines; a NUL is the unterminated-literal error. -/
def munchDelimGo (l : List Char) (stringEnd : Char) (msg : String)
    (fuel i line : Nat) : Except String (Nat × Nat) :=
  match fuel with
  | 0 => throw msg
  | fuel + 1 =>
    if charAt l i = stringEnd then pure (i + 1, line)
    else if charAt l i = '\\' then
      munchDelimGo l stringEnd msg fuel (i + 2)
        (if charAt l (i + 1) = '\n' then line + 1 else line)
    else if charAt l i = nulChar then throw msg
    else munchDelimGo l stringEnd msg fuel (i + 1) line

/-- The `munchCharLiteral` entry point: delimiter is the single quote,
scanning from offset 1. -/
def munchCharLiteral (l : List Char) (line : Nat) : Except String (Nat × Nat) :=
  munchDelimGo l '\'' "Unterminated character constant" (l.length + 2) 1 line

/-- The `munchString` entry point: delimiter is `>` for an
`#include <...>` literal and the double quote otherwise, scanning from
offset 1. -/
def munchString (l : List Char) (line : Nat) (isIncludeLiteral : Bool) :
    Except String (Nat × Nat) :=
  munchDelimGo l (if isIncludeLiteral then '>' else '"')
    "Unterminated string constant" (l.length + 2) 1 line

/-- Result of one iteration of the `tokenize` loop body in
`src/flint/Tokenizer.cpp`: throw, return (the embedded-NUL case, which
pushes the final `TK_EOF` carrying the pending whitespace), emit a token
of `len` characters, or accumulate `len` characters of trivia; `line'` is
the line counter after the iteration. -/
inductive LexAction : Type
  | fail (msg : String)
  | finish
  | emit (t : TokenType) (len : Nat) (line' : Nat)
  | skip (len : Nat) (line' : Nat)
  deriving DecidableEq, Repr

/-- The `tokenLen` base of the `#` case: `1 + munchSpaces(pc1).size()`
(`src/flint/Tokenizer.cpp` line 481). -/
def poundBase (rest : List Char) : Nat := 1 + munchSpacesCount (rest.drop 1)

/-- The `distance(pc, find(pc1, input.end(), newline))` expression of the
`#line`/`#error` cases (`src/flint/Tokenizer.cpp` lines 484 and 488). -/
def poundNlDist (rest : List Char) : Nat :=
  1 + munchSpacesCount (rest.drop 1) +
    (((rest.drop 1).drop (munchSpacesCount (rest.drop 1))).takeWhile
      fun x => x ≠ '\n').length

def poundTok (rest : List Char) : Option (TokenType × Nat) :=
  if startsWithFrom ((rest.drop 1).drop (munchSpacesCount (rest.drop 1))) 0
      "line".toList then
    some (TK_HASHLINE, poundBase rest + poundNlDist rest)
  else if startsWithFrom ((rest.drop 1).drop (munchSpacesCount (rest.drop 1))) 0
      "error".toList then
    if poundBase rest + poundNlDist rest > 0 then
      some (TK_ERROR, poundBase rest + poundNlDist rest)
    else none
  else if startsWithFrom ((rest.drop 1).drop (munchSpacesCount (rest.drop 1))) 0
      "include".toList then
    some (TK_INCLUDE, poundBase rest + 7)
  else if startsWithFrom ((rest.drop 1).drop (munchSpacesCount (rest.drop 1))) 0
      "ifdef".toList then
    some (TK_IFDEF, poundBase rest + 5)
  else if startsWithFrom ((rest.drop 1).drop (munchSpacesCount (rest.drop 1))) 0
      "ifndef".toList then
    some (TK_IFNDEF, poundBase rest + 6)
  else if startsWithFrom ((rest.drop 1).drop (munchSpacesCount (rest.drop 1))) 0
      "if".toList then
    some (TK_POUNDIF, poundBase rest + 2)
  else if startsWithFrom ((rest.drop 1).drop (munchSpacesCount (rest.drop 1))) 0
      "undef".toList then
    some (TK_UNDEF, poundBase rest + 5)
  else if startsWithFrom ((rest.drop 1).drop (munchSpacesCount (rest.drop 1))) 0
      "else".toList then
    some (TK_POUNDELSE, poundBase rest + 4)
  else if startsWithFrom ((rest.drop 1).drop (munchSpacesCount (rest.drop 1))) 0
      "endif".toList then
    some (TK_ENDIF, poundBase rest + 5)
  else if startsWithFrom ((rest.drop 1).drop (munchSpacesCount (rest.drop 1))) 0
      "define".toList then
    some (TK_DEFINE, poundBase rest + 6)
  else if startsWithFrom ((rest.drop 1).drop (munchSpacesCount (rest.drop 1))) 0
      "pragma".toList then
    some (TK_PRAGMA, poundBase rest + 6)
  else if startsWithFrom ((rest.drop 1).drop (munchSpacesCount (rest.drop 1))) 0
      "#".toList then
    some (TK_DOUBLEPOUND, poundBase rest + 2)
  else some (TK_POUND, poundBase rest + 1)

/-- The preprocessor arm of the `tokenize` switch, assembled from
`poundTok`: every emitted directive token carries the current line, and
the only failure is an unterminated `#error` message. -/
def lexPound (rest : List Char) (line : Nat) : LexAction :=
  match poundTok rest with
  | some r => .emit r.1 r.2 line
  | none => .fail "Unterminated #error message"

/-- The string-literal arm of the `tokenize` switch (and the
`#include <...>` special case): munch the literal, emit
`TK_STRING_LITERAL`. -/
def lexStringLit (rest : List Char) (line : Nat) (isInclude : Bool) : LexAction :=
  match munchString rest line isInclude with
  | .ok r => .emit TK_STRING_LITERAL r.1 r.2
  | .error msg => .fail msg

/-- The slash arm of the `tokenize` switch (`Tokenizer.cpp` lines
365-382): block comment and single-line comment become trivia, otherwise
`/=` or `/`. -/
def lexSlash (rest : List Char) (line : Nat) : LexAction :=
  if charAt rest 1 = '*' then
    match munchComment rest line with
    | .ok r => .skip r.1 r.2
    | .error msg => .fail msg
  else if charAt rest 1 = '/' then
    .skip (munchSingleLineComment rest line).1 (munchSingleLineComment rest line).2
  else if charAt rest 1 = '=' then .emit TK_DIVIDE_ASSIGN 2 line
  else .emit TK_DIVIDE 1 line

/-- The number arm of the `tokenize` switch. -/
def lexNumber (rest : List Char) (line : Nat) : LexAction :=
  match munchNumber rest with
  | .ok len => .emit TK_NUMBER len line
  | .error msg => .fail msg

/-- The character-literal arm of the `tokenize` switch. -/
def lexCharLit (rest : List Char) (line : Nat) : LexAction :=
  match munchCharLiteral rest line with
  | .ok r => .emit TK_CHAR_LITERAL r.1 r.2
  | .error msg => .fail msg

/-- The identifier/keyword arm of the `tokenize` switch (`Tokenizer.cpp`
lines 532-548): munch the identifier and look it up in the keyword
table. -/
def lexIdentKw (rest : List Char) (line : Nat) : LexAction :=
  match munchIdentifier rest with
  | .ok len =>
    .emit
      (match (keywords.lookup (rest.take len)) with
        | some t => t
        | none => TK_IDENTIFIER) len line
  | .error msg => .fail msg

/-- One iteration of the `tokenize` loop body (the `#include <...>`
special case followed by the big `switch`), from `src/flint/Tokenizer.cpp`
lines 285-561. `rest` is the unconsumed input (nonempty when called),
`lastTy` the kind of the most recently emitted token. Error messages are
abbreviated (the C++ code interpolates file/line/text into them). -/
def lexStep (rest : List Char) (line : Nat) (lastTy : Option TokenType) :
    LexAction :=
  if charAt rest 0 = '<' ∧ lastTy = some TK_INCLUDE then
    lexStringLit rest line true
  else if charAt rest 0 = '~' then .emit TK_TILDE 1 line
  else if charAt rest 0 = '(' then .emit TK_LPAREN 1 line
  else if charAt rest 0 = ')' then .emit TK_RPAREN 1 line
  else if charAt rest 0 = '[' then .emit TK_LSQUARE 1 line
  else if charAt rest 0 = ']' then .emit TK_RSQUARE 1 line
  else if charAt rest 0 = '{' then .emit TK_LCURL 1 line
  else if charAt rest 0 = '}' then .emit TK_RCURL 1 line
  else if charAt rest 0 = ';' then .emit TK_SEMICOLON 1 line
  else if charAt rest 0 = ',' then .emit TK_COMMA 1 line
  else if charAt rest 0 = '?' then .emit TK_QUESTION 1 line
  else if charAt rest 0 = ':' then
    if charAt rest 1 = ':' then .emit TK_DOUBLE_COLON 2 line else .emit TK_COLON 1 line
  else if charAt rest 0 = '%' then
    if charAt rest 1 = '=' then .emit TK_REMAINDER_ASSIGN 2 line else .emit TK_REMAINDER 1 line
  else if charAt rest 0 = '=' then
    if charAt rest 1 = '=' then .emit TK_EQUAL_TO 2 line else .emit TK_ASSIGN 1 line
  else if charAt rest 0 = '!' then
    if charAt rest 1 = '=' then .emit TK_NOT_ASSIGN 2 line else .emit TK_NOT 1 line
  else if charAt rest 0 = '^' then
    if charAt rest 1 = '=' then .emit TK_XOR_ASSIGN 2 line else .emit TK_XOR 1 line
  else if charAt rest 0 = '*' then
    if charAt rest 1 = '=' then .emit TK_STAR_ASSIGN 2 line else .emit TK_STAR 1 line
  else if charAt rest 0 = '+' then
    if charAt rest 1 = '+' then .emit TK_INCREMENT 2 line
    else if charAt rest 1 = '=' then .emit TK_PLUS_ASSIGN 2 line
    else .emit TK_PLUS 1 line
  else if charAt rest 0 = '&' then
    if charAt rest 1 = '&' then .emit TK_LOGICAL_AND 2 line
    else if charAt rest 1 = '=' then .emit TK_AND_ASSIGN 2 line
    else .emit TK_AMPERSAND 1 line
  else if charAt rest 0 = '|' then
    if charAt rest 1 = '|' then .emit TK_LOGICAL_OR 2 line
    else if charAt rest 1 = '=' then .emit TK_OR_ASSIGN 2 line
    else .emit TK_BINARY_OR 1 line
  else if charAt rest 0 = '<' then
    if charAt rest 1 = '=' then .emit TK_LESS_EQUAL 2 line
    else if charAt rest 1 = '<' then
      if charAt rest 2 = '=' then .emit TK_LSHIFT_ASSIGN 3 line else .emit TK_LSHIFT 2 line
    else .emit TK_LESS 1 line
  else if charAt rest 0 = '>' then
    if charAt rest 1 = '=' then .emit TK_GREATER_EQUAL 2 line
    else if charAt rest 1 = '>' then
      if charAt rest 2 = '=' then .emit TK_RSHIFT_ASSIGN 3 line else .emit TK_RSHIFT 2 line
    else .emit TK_GREATER 1 line
  else if charAt rest 0 = '/' then lexSlash rest line
  else if charAt rest 0 = '\\' then
    if charAt rest 1 = '\n' ∨ charAt rest 1 = '\r' then .skip 2 (line + 1)
    else .fail "Misplaced backslash"
  else if charAt rest 0 = '\n' then .skip 1 (line + 1)
  else if charAt rest 0 = '\r' then .skip 1 line
  else if charAt rest 0 = '-' then
    if charAt rest 1 = '-' then .emit TK_DECREMENT 2 line
    else if charAt rest 1 = '=' then .emit TK_MINUS_ASSIGN 2 line
    else if charAt rest 1 = '>' then
      if charAt rest 2 = '*' then .emit TK_ARROW_STAR 3 line else .emit TK_ARROW 2 line
    else .emit TK_MINUS 1 line
  else if charAt rest 0 = ' ' ∨ charAt rest 0 = '\t' then .skip (munchSpacesCount rest) line
  else if charAt rest 0 = nulChar then .finish
  else if charAt rest 0 = '`' then .fail "Invalid character"
  else if isDigitA (charAt rest 0) then lexNumber rest line
  else if charAt rest 0 = '.' then
    if isDigitA (charAt rest 1) then lexNumber rest line
    else if charAt rest 1 = '*' then .emit TK_DOT_STAR 2 line
    else if charAt rest 1 = '.' ∧ charAt rest 2 = '.' then .emit TK_ELLIPSIS 3 line
    else .emit TK_DOT 1 line
  else if charAt rest 0 = '\'' then lexCharLit rest line
  else if charAt rest 0 = '"' then lexStringLit rest line false
  else if charAt rest 0 = '#' then
    lexPound rest line
  else if isCntrlA (charAt rest 0) then .skip 1 line
  else if isAlphaA (charAt rest 0) ∨ charAt rest 0 = '_' ∨ charAt rest 0 = '$' ∨ charAt rest 0 = '@' then
    lexIdentKw rest line
  else .fail "Unrecognized character"

/-- Lower bound a loop-body action puts on the line counter: an emitted
token or trivia run never carries a line below the current one. -/
def actionLineLB (line : Nat) : LexAction → Prop
  | .emit _ _ l => line ≤ l
  | .skip _ l => line ≤ l
  | _ => True

/-- Result of `tokenize`: the token list, the `structures` index list and
the final line counter (the C++ return value). -/
structure TokenizeResult : Type where
  tokens : List Token
  structures : List Nat
  line : Nat
  deriving DecidableEq, Repr

/-- The `structures` bookkeeping at the top of each `tokenize` loop
iteration (`src/flint/Tokenizer.cpp` lines 288-294): when the most
recently emitted token opened a class/struct/union, its index is pushed
(again on every iteration until the next token is emitted, as in the
source). -/
def tokStructures (output : List Token) (structures : List Nat) : List Nat :=
  if output.getLast?.map Token.type_ = some TK_CLASS ∨
      output.getLast?.map Token.type_ = some TK_STRUCT ∨
      output.getLast?.map Token.type_ = some TK_UNION then
    structures ++ [output.length - 1]
  else structures

/-- The `tokenize` loop from `src/flint/Tokenizer.cpp`: per iteration,
push a `structures` entry if the last token opened a class/struct/union,
then run the loop body (`lexStep`); an emitted token takes the pending
trivia, an emitted trivia run is appended to it. On normal exit (input
exhausted) the final `TK_EOF` token carries empty trivia (line 564 passes
`""`), discarding any pending whitespace; the embedded-NUL exit (line 431)
passes the pending whitespace instead. Every iteration of the C++ loop
consumes at least one character, so `fuel = length + 2` never runs out on
a run the C++ loop completes; iterator arithmetic past the input end
(reachable only through the `#line`/`#error` length computation) is
clamped to the end. -/
def tokenizeGo (fuel : Nat) (rest : List Char) (line : Nat) (ws : List Char)
    (output : List Token) (structures : List Nat) :
    Except String TokenizeResult :=
  match fuel with
  | 0 => throw "tokenize loop did not terminate"
  | fuel + 1 =>
    if rest.isEmpty then
      pure ⟨output ++ [⟨TK_EOF, [], [], line⟩], structures, line⟩
    else
      match lexStep rest line (output.getLast?.map Token.type_) with
      | .fail msg => throw msg
      | .finish =>
        pure ⟨output ++ [⟨TK_EOF, [], ws, line⟩],
          tokStructures output structures, line⟩
      | .emit t len line' =>
        tokenizeGo fuel (rest.drop len) line' []
          (output ++ [⟨t, rest.take len, ws, line'⟩])
          (tokStructures output structures)
      | .skip len line' =>
        tokenizeGo fuel (rest.drop len) line' (ws ++ rest.take len)
          output (tokStructures output structures)

/-- The `tokenize` entry point: line counter starts at 1, everything else
empty. -/
def tokenize (input : List Char) : Except String TokenizeResult :=
  tokenizeGo (input.length + 2) input 1 [] [] []

/-- Concatenation of every token's preceding trivia followed by its
lexeme, in stream order. -/
def concatToks (ts : List Token) : List Char :=
  (ts.map fun t => t.precedingWhitespace_ ++ t.value_).flatten

/-- Sentinel token: reading past the end of the token vector is modelled
as yielding an `TK_EOF` token, the sentinel every stream produced by
`tokenize` ends with and that the scanning code relies on. -/
def eofTok : Token := ⟨TK_EOF, [], [], 0⟩

/-- Reading entry `pos` of a token stream, with the `TK_EOF` sentinel out
of range. -/
def tokAt (tokens : List Token) (pos : Nat) : Token := tokens.getD pos eofTok

/-- Wrap-around of a C++ `uint` (32 bits). -/
def U32 : Nat := 4294967296

/-- Incrementing a C++ `uint`: agrees with addition modulo 2^32 on all
representable values (`n < 2^32`), which every counter here stays
within. -/
def u32succ (n : Nat) : Nat := if n + 1 = U32 then 0 else n + 1

/-- Decrementing a C++ `uint`: wraps around to `2^32 - 1` at zero (this
is what `--parenNest` does on a stray closing parenthesis). -/
def u32pred (n : Nat) : Nat := if n = 0 then U32 - 1 else n - 1

/-- Element-by-element comparison of `list` against the tokens starting
at `pos` (the `find_if` body of flint `atSequence`). -/
def matchesFrom (tokens : List Token) (pos : Nat) : List TokenType → Bool
  | [] => true
  | k :: ks => ((tokAt tokens pos).type_ = k) && matchesFrom tokens (pos + 1) ks

/-- The flint `atSequence` from `src/flint/Checks.cpp` lines 66-75:
returns false outright when `pos + list.size() + 1 >= tokens.size()`,
otherwise compares element by element. -/
def atSequence (tokens : List Token) (pos : Nat) (list : List TokenType) :
    Bool :=
  if pos + list.length + 1 ≥ tokens.length then false
  else matchesFrom tokens pos list

/-- The cxx `atSequence` from `src/cxx/Checks.cpp` lines 66-75: iterator
based, no bounds check; it relies on the `TK_EOF` sentinel to make a
comparison fail before the iterator leaves the buffer. -/
def atSequenceCxx (tokens : List Token) (pos : Nat) : List TokenType → Bool
  | [] => true
  | k :: ks => ((tokAt tokens pos).type_ = k) && atSequenceCxx tokens (pos + 1) ks

/-- Loop of the flint `skipTemplateSpec` (`src/flint/Checks.cpp` lines
119-171). Note that unlike `skipBlock` (line 240) and unlike the cxx
version (which does `++it` before its loop), this loop begins at `pos`
itself — the leading `<` the function was called on — even though
`angleNest` already starts at 1 to account for it. `angleNest` and
`parenNest` are C++ `uint`s, so decrements wrap at zero. Returns the
final position and the `containsArray` flag. -/
def skipTemplateSpecGo (tokens : List Token) (fuel pos angleNest parenNest : Nat)
    (containsArray : Bool) : Nat × Bool :=
  match fuel with
  | 0 => (pos, containsArray)
  | fuel + 1 =>
    if pos < tokens.length ∧ (tokAt tokens pos).type_ ≠ TK_EOF then
      if (tokAt tokens pos).type_ = TK_LPAREN then
        skipTemplateSpecGo tokens fuel (pos + 1) angleNest (u32succ parenNest) containsArray
      else if (tokAt tokens pos).type_ = TK_RPAREN then
        skipTemplateSpecGo tokens fuel (pos + 1) angleNest (u32pred parenNest) containsArray
      else if parenNest > 0 then
        skipTemplateSpecGo tokens fuel (pos + 1) angleNest parenNest containsArray
      else if (tokAt tokens pos).type_ = TK_LSQUARE then
        skipTemplateSpecGo tokens fuel (pos + 1) angleNest parenNest
          (if angleNest = 1 then true else containsArray)
      else if (tokAt tokens pos).type_ = TK_LESS then
        skipTemplateSpecGo tokens fuel (pos + 1) (u32succ angleNest) parenNest containsArray
      else if (tokAt tokens pos).type_ = TK_GREATER then
        if u32pred angleNest = 0 then (pos, containsArray)
        else skipTemplateSpecGo tokens fuel (pos + 1) (u32pred angleNest) parenNest containsArray
      else skipTemplateSpecGo tokens fuel (pos + 1) angleNest parenNest containsArray
    else (pos, containsArray)

/-- The flint `skipTemplateSpec` entry point: `angleNest` starts at 1
("because we began on the leading `<`"), `parenNest` at 0, and the loop
is entered at `pos` itself. The entry `assert` (`tokens[pos]` is
`TK_LESS`) holds at every call site and is not modelled. -/
def skipTemplateSpec (tokens : List Token) (pos : Nat) : Nat × Bool :=
  skipTemplateSpecGo tokens (tokens.length + 1) pos 1 0 false

/-- Loop of the cxx `skipTemplateSpec` (`src/cxx/Checks.cpp` lines
95-144): same nesting bookkeeping, but entered only after `++it` has
stepped past the leading `<`; the loop is guarded by the `TK_EOF`
sentinel alone. -/
def skipTemplateSpecCxxGo (tokens : List Token) (fuel pos angleNest parenNest : Nat)
    (containsArray : Bool) : Nat × Bool :=
  match fuel with
  | 0 => (pos, containsArray)
  | fuel + 1 =>
    if (tokAt tokens pos).type_ ≠ TK_EOF then
      if (tokAt tokens pos).type_ = TK_LPAREN then
        skipTemplateSpecCxxGo tokens fuel (pos + 1) angleNest (u32succ parenNest) containsArray
      else if (tokAt tokens pos).type_ = TK_RPAREN then
        skipTemplateSpecCxxGo tokens fuel (pos + 1) angleNest (u32pred parenNest) containsArray
      else if parenNest > 0 then
        skipTemplateSpecCxxGo tokens fuel (pos + 1) angleNest parenNest containsArray
      else if (tokAt tokens pos).type_ = TK_LSQUARE then
        skipTemplateSpecCxxGo tokens fuel (pos + 1) angleNest parenNest
          (if angleNest = 1 then true else containsArray)
      else if (tokAt tokens pos).type_ = TK_LESS then
        skipTemplateSpecCxxGo tokens fuel (pos + 1) (u32succ angleNest) parenNest containsArray
      else if (tokAt tokens pos).type_ = TK_GREATER then
        if u32pred angleNest = 0 then (pos, containsArray)
        else skipTemplateSpecCxxGo tokens fuel (pos + 1) (u32pred angleNest) parenNest containsArray
      else skipTemplateSpecCxxGo tokens fuel (pos + 1) angleNest parenNest containsArray
    else (pos, containsArray)

/-- The cxx `skipTemplateSpec` entry point: `++it` first, then the loop. -/
def skipTemplateSpecCxx (tokens : List Token) (pos : Nat) : Nat × Bool :=
  skipTemplateSpecCxxGo tokens (tokens.length + 1) (pos + 1) 1 0 false

/-- Loop of the flint `skipBlock` (`src/flint/Checks.cpp` lines 235-260):
balanced `{`/`}` counting, entered after `++pos` stepped past the leading
`{`; `openBraces` is a C++ `uint`. -/
def skipBlockGo (tokens : List Token) (fuel pos openBraces : Nat) : Nat :=
  match fuel with
  | 0 => pos
  | fuel + 1 =>
    if pos < tokens.length ∧ (tokAt tokens pos).type_ ≠ TK_EOF then
      if (tokAt tokens pos).type_ = TK_LCURL then
        skipBlockGo tokens fuel (pos + 1) (u32succ openBraces)
      else if (tokAt tokens pos).type_ = TK_RCURL then
        if u32pred openBraces = 0 then pos
        else skipBlockGo tokens fuel (pos + 1) (u32pred openBraces)
      else skipBlockGo tokens fuel (pos + 1) openBraces
    else pos

/-- The flint `skipBlock` entry point: `openBraces` starts at 1 for the
leading `{` the cursor is on, and the loop starts just past it. The
entry `assert` (`tokens[pos]` is `TK_LCURL`) is not modelled. -/
def skipBlock (tokens : List Token) (pos : Nat) : Nat :=
  skipBlockGo tokens (tokens.length + 1) (pos + 1) 1

/-- The flint `skipFunctionDeclaration` (`src/flint/Checks.cpp` lines
306-321): advance to the first `;` (prototype) or, when a `{` comes
first, to its matching `}` via `skipBlock`. -/
def skipFunctionDeclarationGo (tokens : List Token) (fuel pos : Nat) : Nat :=
  match fuel with
  | 0 => pos
  | fuel + 1 =>
    if pos < tokens.length ∧ (tokAt tokens pos).type_ ≠ TK_EOF then
      if (tokAt tokens pos).type_ = TK_SEMICOLON then pos
      else if (tokAt tokens pos).type_ = TK_LCURL then skipBlock tokens pos
      else skipFunctionDeclarationGo tokens fuel (pos + 1)
    else pos

/-- The `skipFunctionDeclaration` entry point. -/
def skipFunctionDeclaration (tokens : List Token) (pos : Nat) : Nat :=
  skipFunctionDeclarationGo tokens (tokens.length + 1) pos

/-- Argument span from `src/flint/Checks.cpp` (struct `Argument`):
`first` points at the start of a call argument, `last` one past its
end. -/
structure Argument : Type where
  first : Nat
  last : Nat
  deriving DecidableEq, Repr

/-- Loop of the flint `getRealArguments` (`src/flint/Checks.cpp` lines
406-461): scans from just after the opening `(`, splitting at commas
seen at `parenCount == 1`. The `TK_LESS` heuristic block (skip a nested
template spec on seeing `<`) is commented out in this source, so `<`,
`>` and everything between them are scanned like ordinary tokens.
`parenCount` is a C++ `int`. Returns the final cursor, the final
`argStart` and the spans pushed. -/
def getRealArgumentsGo (tokens : List Token) (fuel : Nat) (pos argStart : Nat)
    (parenCount : Int) (args : List Argument) : Nat × Nat × List Argument :=
  match fuel with
  | 0 => (pos, argStart, args)
  | fuel + 1 =>
    if pos < tokens.length ∧ (tokAt tokens pos).type_ ≠ TK_EOF then
      if (tokAt tokens pos).type_ = TK_LPAREN then
        getRealArgumentsGo tokens fuel (pos + 1) argStart (parenCount + 1) args
      else if (tokAt tokens pos).type_ = TK_RPAREN then
        if parenCount - 1 = 0 then (pos, argStart, args)
        else getRealArgumentsGo tokens fuel (pos + 1) argStart (parenCount - 1) args
      else if (tokAt tokens pos).type_ = TK_COMMA then
        if parenCount = 1 then
          getRealArgumentsGo tokens fuel (pos + 1) (pos + 1) parenCount
            (args ++ [⟨argStart, pos⟩])
        else getRealArgumentsGo tokens fuel (pos + 1) argStart parenCount args
      else getRealArgumentsGo tokens fuel (pos + 1) argStart parenCount args
    else (pos, argStart, args)

/-- The flint `getRealArguments` entry point: starts just after the `(`
the cursor is on (its `assert` is not modelled), returns `false` when the
loop ran to the end of the stream or to `TK_EOF`, and otherwise pushes
the final span when nonempty. Returns (success, final cursor, spans). -/
def getRealArguments (tokens : List Token) (pos : Nat) :
    Bool × Nat × List Argument :=
  match getRealArgumentsGo tokens (tokens.length + 1) (pos + 1) (pos + 1) 1 [] with
  | (posF, argStartF, args) =>
    if posF ≥ tokens.length ∨ (tokAt tokens posF).type_ = TK_EOF then
      (false, posF, args)
    else if argStartF ≠ posF then (true, posF, args ++ [⟨argStartF, posF⟩])
    else (true, posF, args)

/-- The flint `getFunctionNameAndArguments` (`src/flint/Checks.cpp` lines
471-489): records the function-name span (an optional template spec is
skipped with `skipTemplateSpec`), then delegates to `getRealArguments`.
Returns (success, final cursor, `func.last`, spans); on the
early-failure path the C++ code leaves `func.last` at the value the
caller initialized it with (`pos + 1` at the only call site), which is
what is returned here. -/
def getFunctionNameAndArguments (tokens : List Token) (pos : Nat) :
    Bool × Nat × Nat × List Argument :=
  if pos + 1 < tokens.length ∧ (tokAt tokens (pos + 1)).type_ = TK_LESS then
    if (skipTemplateSpec tokens (pos + 1)).1 ≥ tokens.length ∨
        (tokAt tokens (skipTemplateSpec tokens (pos + 1)).1).type_ = TK_EOF then
      (false, (skipTemplateSpec tokens (pos + 1)).1, pos + 1, [])
    else
      match getRealArguments tokens ((skipTemplateSpec tokens (pos + 1)).1 + 1) with
      | (ok, posF, args) =>
        (ok, posF, (skipTemplateSpec tokens (pos + 1)).1 + 1, args)
  else
    match getRealArguments tokens (pos + 1) with
    | (ok, posF, args) => (ok, posF, pos + 1, args)

/-- Loop of the cxx `getRealArguments` (`src/cxx/Checks.cpp` lines
331-368): a do-while that first checks for `TK_EOF` at the current
cursor (failure), then advances and dispatches on the new token; here a
`TK_LESS` does trigger the nested `skipTemplateSpec` heuristic, and the
loop exits when `parenCount` reaches 0. Returns `none` on the EOF
failure, otherwise (final cursor, final argStart, spans). -/
def getRealArgumentsCxxGo (tokens : List Token) (fuel : Nat) (pos argStart : Nat)
    (parenCount : Int) (args : List Argument) :
    Option (Nat × Nat × List Argument) :=
  match fuel with
  | 0 => none
  | fuel + 1 =>
    if (tokAt tokens pos).type_ ≠ TK_EOF then
      if (tokAt tokens (pos + 1)).type_ = TK_LPAREN then
        if parenCount + 1 = 0 then some (pos + 1, argStart, args)
        else getRealArgumentsCxxGo tokens fuel (pos + 1) argStart (parenCount + 1) args
      else if (tokAt tokens (pos + 1)).type_ = TK_RPAREN then
        if parenCount - 1 = 0 then some (pos + 1, argStart, args)
        else getRealArgumentsCxxGo tokens fuel (pos + 1) argStart (parenCount - 1) args
      else if (tokAt tokens (pos + 1)).type_ = TK_LESS then
        if parenCount = 0 then some ((skipTemplateSpecCxx tokens (pos + 1)).1, argStart, args)
        else getRealArgumentsCxxGo tokens fuel ((skipTemplateSpecCxx tokens (pos + 1)).1)
          argStart parenCount args
      else if (tokAt tokens (pos + 1)).type_ = TK_COMMA then
        if parenCount = 1 then
          getRealArgumentsCxxGo tokens fuel (pos + 1) (pos + 1 + 1) parenCount
            (args ++ [⟨argStart, pos + 1⟩])
        else
          if parenCount = 0 then some (pos + 1, argStart, args)
          else getRealArgumentsCxxGo tokens fuel (pos + 1) argStart parenCount args
      else
        if parenCount = 0 then some (pos + 1, argStart, args)
        else getRealArgumentsCxxGo tokens fuel (pos + 1) argStart parenCount args
    else none

/-- The cxx `getRealArguments` entry point (`src/cxx/Checks.cpp` lines
331-373): the do-while starts with the cursor on the `(` and
`parenCount = 1` (so the while-condition check after the first body run
is modelled inside the loop); afterwards the final span is pushed when
nonempty. Returns `none` for the `return false` path. -/
def getRealArgumentsCxx (tokens : List Token) (pos : Nat) :
    Option (Nat × List Argument) :=
  match getRealArgumentsCxxGo tokens (tokens.length + 1) pos (pos + 1) 1 [] with
  | none => none
  | some (iF, argStartF, args) =>
    some (iF, if argStartF ≠ iF then args ++ [⟨argStartF, iF⟩] else args)

/-- Severity levels from `src/flint/Options.hpp` (`enum Lint`). -/
inductive Lint : Type
  | ERROR | WARNING | ADVICE
  deriving DecidableEq, Repr

/-- A single diagnostic, from `src/flint/ErrorReport.hpp`
(`class ErrorObject`): severity, line, title and optional description. -/
structure ErrorObject : Type where
  type_ : Lint
  line_ : Nat
  title : List Char
  desc : List Char
  deriving DecidableEq, Repr

/-- File categories from `src/flint/FileCategories.hpp`. -/
inductive FileCategory : Type
  | HEADER | INL_HEADER | SOURCE_C | SOURCE_CPP | UNKNOWN
  deriving DecidableEq, Repr

/-- The `hasSuffix` helper from `src/flint/FileCategories.cpp`. -/
def hasSuffix (str suffix : List Char) : Bool := suffix.isSuffixOf str

/-- Header extensions from `src/flint/FileCategories.cpp`. -/
def extsHeader : List (List Char) := [".h".toList, ".hpp".toList, ".hh".toList]

/-- C source extensions from `src/flint/FileCategories.cpp`. -/
def extsSourceC : List (List Char) := [".c".toList]

/-- C++ source extensions from `src/flint/FileCategories.cpp`. -/
def extsSourceCpp : List (List Char) :=
  [".C".toList, ".cc".toList, ".cpp".toList, ".CPP".toList,
   ".c++".toList, ".cp".toList, ".cxx".toList]

/-- The `getFileCategory` classifier from `src/flint/FileCategories.cpp`:
header extensions are tried first (with their `-inl` variants), then C,
then C++ extensions. -/
def getFileCategory (path : List Char) : FileCategory :=
  match extsHeader.findSome? (fun ext =>
    if hasSuffix path ("-inl".toList ++ ext) then some FileCategory.INL_HEADER
    else if hasSuffix path ext then some FileCategory.HEADER
    else none) with
  | some c => c
  | none =>
    if extsSourceC.any (fun ext => hasSuffix path ext) then
      FileCategory.SOURCE_C
    else if extsSourceCpp.any (fun ext => hasSuffix path ext) then
      FileCategory.SOURCE_CPP
    else FileCategory.UNKNOWN

/-- Substring search, modelling `std::string::find(s) != npos`. -/
def containsSub (l sub : List Char) : Bool :=
  (List.range (l.length + 1)).any fun i => sub.isPrefixOf (l.drop i)

/-- The `formatArg` pretty-printer from `src/flint/Checks.cpp` lines
347-358: concatenates the lexemes of a span, inserting one space before
any token (other than the first) that had preceding trivia. -/
def formatArg (tokens : List Token) (arg : Argument) : List Char :=
  ((List.range' arg.first (arg.last - arg.first)).map fun pos =>
    (if pos ≠ arg.first ∧ (tokAt tokens pos).precedingWhitespace_ ≠ [] then
      [' '] else []) ++ (tokAt tokens pos).value_).flatten

/-- The `formatFunction` pretty-printer from `src/flint/Checks.cpp` lines
371-384: the name span followed by the parenthesized, comma-separated
argument spans. -/
def formatFunction (tokens : List Token) (func : Argument)
    (args : List Argument) : List Char :=
  formatArg tokens func ++ "(".toList ++
    (List.intercalate ", ".toList (args.map (formatArg tokens))) ++ ")".toList

/-- The loop of `iterateClasses` from `src/flint/Checks.cpp` lines
275-289: scans positions below `tokens.size() - 1`, skipping
`template <...>` parameter lists with `skipTemplateSpec`, and runs the
callback at each `class`/`struct`/`union` token. -/
def iterateClassesGo (tokens : List Token) (fuel : Nat)
    (cb : List Token → Nat → List ErrorObject) (pos : Nat)
    (acc : List ErrorObject) : List ErrorObject :=
  match fuel with
  | 0 => acc
  | fuel + 1 =>
    if pos < tokens.length - 1 then
      if atSequence tokens pos [TK_TEMPLATE, TK_LESS] then
        iterateClassesGo tokens fuel cb ((skipTemplateSpec tokens (pos + 1)).1 + 1) acc
      else if (tokAt tokens pos).type_ = TK_CLASS ∨
          (tokAt tokens pos).type_ = TK_STRUCT ∨
          (tokAt tokens pos).type_ = TK_UNION then
        iterateClassesGo tokens fuel cb (pos + 1) (acc ++ cb tokens pos)
      else iterateClassesGo tokens fuel cb (pos + 1) acc
    else acc

/-- The `/* implicit */` marker the constructor check accepts in the
trivia preceding a constructor. -/
def lintOverride : List Char := "/* implicit */".toList

/-- The skip-to-`{` loop at the head of the `checkConstructors` callback
(`src/flint/Checks.cpp` lines 1043-1048): advances from the class name to
the opening `{`; a `;` on the way is a forward declaration and aborts
(`none`). -/
def skipToCurlOrSemiGo (tokens : List Token) (fuel pos : Nat) : Option Nat :=
  match fuel with
  | 0 => some pos
  | fuel + 1 =>
    if pos < tokens.length ∧ (tokAt tokens pos).type_ ≠ TK_LCURL then
      if (tokAt tokens pos).type_ = TK_SEMICOLON then none
      else skipToCurlOrSemiGo tokens fuel (pos + 1)
    else some pos

/-- The `skipToCurlOrSemi` entry point. -/
def skipToCurlOrSemi (tokens : List Token) (pos : Nat) : Option Nat :=
  skipToCurlOrSemiGo tokens (tokens.length + 1) pos

/-- The constructor-classification block of the `checkConstructors`
callback (`src/flint/Checks.cpp` lines 1095-1152): given the candidate's
position (for the diagnostic line), the name span and the argument
spans, emits the copy-constructor, move-constructor or implicit
type-conversion-constructor error the code emits, if any. -/
def ctorClassify (tokens : List Token) (objName : List Char) (tokPos : Nat)
    (func : Argument) (args : List Argument) : List ErrorObject :=
  match args with
  | [] => []
  | arg0 :: argsRest =>
    let isConstArgument := (tokAt tokens arg0.first).type_ = TK_CONST
    let argPos := if isConstArgument then arg0.first + 1 else arg0.first
    let nextType :=
      if argPos + 1 ≠ arg0.last then (tokAt tokens (argPos + 1)).type_
      else TK_EOF
    if (tokAt tokens argPos).value_ = objName ∧ nextType ≠ TK_STAR then
      if nextType = TK_AMPERSAND ∧ ¬ isConstArgument then
        [⟨Lint.ERROR, (tokAt tokens tokPos).line_,
          "Copy constructors should take a const argument: ".toList ++
            formatFunction tokens func args, []⟩]
      else if nextType = TK_LOGICAL_AND ∧ isConstArgument then
        [⟨Lint.ERROR, (tokAt tokens tokPos).line_,
          "Move constructors should not take a const argument: ".toList ++
            formatFunction tokens func args, []⟩]
      else []
    else if atSequence tokens argPos
        [TK_IDENTIFIER, TK_DOUBLE_COLON, TK_IDENTIFIER, TK_LESS] ∧
        (tokAt tokens argPos).value_ = "std".toList ∧
        (tokAt tokens (argPos + 2)).value_ = "initializer_list".toList then []
    else
      let foundConversionCtor :=
        match argsRest with
        | [] => true
        | arg1 :: _ =>
          (List.range' arg1.first (arg1.last - arg1.first)).any fun p =>
            (tokAt tokens p).type_ = TK_ASSIGN
      if foundConversionCtor then
        [⟨Lint.ERROR, (tokAt tokens tokPos).line_,
          "Single - argument constructor '".toList ++
            formatFunction tokens func args ++
            "' may inadvertently be used as a type conversion constructor.".toList,
          ("Prefix the function with the 'explicit' keyword to avoid this, " ++
            "or add an /* implicit */ comment to suppress this warning.").toList⟩]
      else []

/-- The body scan of the `checkConstructors` callback
(`src/flint/Checks.cpp` lines 1050-1162): walks the class body from just
past the `{`. Nested `{` blocks are skipped with `skipBlock`; a `}` ends
the scan; a `explicit` token runs `skipFunctionDeclaration` and then
executes `break` — the line 1065-1068 behaviour — abandoning the rest of
the class body; a constructor candidate (`Identifier (` matching the
class name) is exempted when it is the `(void)` form or carries the
`/* implicit */` marker, and otherwise classified via
`getFunctionNameAndArguments` and `ctorClassify` (a parse failure
returns). -/
def ctorScanGo (tokens : List Token) (fuel : Nat) (objName : List Char)
    (pos : Nat) (acc : List ErrorObject) : List ErrorObject :=
  match fuel with
  | 0 => acc
  | fuel + 1 =>
    if pos < tokens.length ∧ (tokAt tokens pos).type_ ≠ TK_EOF then
      if (tokAt tokens pos).type_ = TK_LCURL then
        ctorScanGo tokens fuel objName (skipBlock tokens pos + 1) acc
      else if (tokAt tokens pos).type_ = TK_RCURL then acc
      else if (tokAt tokens pos).type_ = TK_EXPLICIT then acc
      else if atSequence tokens pos [TK_IDENTIFIER, TK_LPAREN] ∧
          (tokAt tokens pos).value_ = objName then
        if atSequence tokens pos [TK_IDENTIFIER, TK_LPAREN, TK_VOID, TK_RPAREN] then
          ctorScanGo tokens fuel objName (skipFunctionDeclaration tokens pos + 1) acc
        else if containsSub (tokAt tokens pos).precedingWhitespace_ lintOverride then
          ctorScanGo tokens fuel objName (skipFunctionDeclaration tokens pos + 1) acc
        else
          match getFunctionNameAndArguments tokens pos with
          | (ok, posF, funcLast, args) =>
            if ok = false then acc
            else if args = [] then
              ctorScanGo tokens fuel objName (skipFunctionDeclaration tokens posF + 1) acc
            else
              ctorScanGo tokens fuel objName (skipFunctionDeclaration tokens posF + 1)
                (acc ++ ctorClassify tokens objName pos ⟨pos, funcLast⟩ args)
      else ctorScanGo tokens fuel objName (pos + 1) acc
    else acc

/-- The `checkConstructors` callback (`src/flint/Checks.cpp` lines
1023-1163): runs on every `class`/`struct`/`union` token found by
`iterateClasses`; unions and nameless C-style structs are skipped, the
class name is recorded and the body scanned by `ctorScanGo`. -/
def checkConstructorsCallback (tokens : List Token) (pos : Nat) :
    List ErrorObject :=
  if ¬ ((tokAt tokens pos).type_ = TK_STRUCT ∨
      (tokAt tokens pos).type_ = TK_CLASS) then []
  else if ¬ ((tokAt tokens (pos + 1)).type_ = TK_IDENTIFIER) then []
  else
    match skipToCurlOrSemi tokens (pos + 1) with
    | none => []
    | some p => ctorScanGo tokens (tokens.length + 1) (tokAt tokens (pos + 1)).value_ (p + 1) []

/-- The `checkConstructors` check (`src/flint/Checks.cpp` lines
1010-1164): skipped for C source files, otherwise the callback is run on
every class found by `iterateClasses`. -/
def checkConstructors (path : List Char) (tokens : List Token) :
    List ErrorObject :=
  if getFileCategory path = FileCategory.SOURCE_C then []
  else iterateClassesGo tokens (tokens.length + 1) checkConstructorsCallback 0 []

/-- The `checkIfEndifBalance` loop (`src/flint/Checks.cpp` lines
962-995): a running `int` counter of open `#if`-kind directives; each
`#endif` below zero and each `#else` at zero is an error. Note this
source does not return after the first error (the original returned
there), so the final `openIf != 0` test also fires after an unmatched
`#endif` was already reported. -/
def checkIfEndifBalanceGo (tokens : List Token) (fuel pos : Nat) (openIf : Int)
    (acc : List ErrorObject) : Int × List ErrorObject :=
  match fuel with
  | 0 => (openIf, acc)
  | fuel + 1 =>
    if pos < tokens.length then
      if (tokAt tokens pos).type_ = TK_IFNDEF ∨
          (tokAt tokens pos).type_ = TK_IFDEF ∨
          (tokAt tokens pos).type_ = TK_POUNDIF then
        checkIfEndifBalanceGo tokens fuel (pos + 1) (openIf + 1) acc
      else if (tokAt tokens pos).type_ = TK_ENDIF then
        checkIfEndifBalanceGo tokens fuel (pos + 1) (openIf - 1)
          (if openIf - 1 < 0 then
            acc ++ [⟨Lint.ERROR, (tokAt tokens pos).line_,
              "Unmatched #endif.".toList, []⟩]
          else acc)
      else if (tokAt tokens pos).type_ = TK_POUNDELSE then
        checkIfEndifBalanceGo tokens fuel (pos + 1) openIf
          (if openIf = 0 then
            acc ++ [⟨Lint.ERROR, (tokAt tokens pos).line_,
              "Unmatched #else.".toList, []⟩]
          else acc)
      else checkIfEndifBalanceGo tokens fuel (pos + 1) openIf acc
    else (openIf, acc)

/-- The `checkIfEndifBalance` check (`src/flint/Checks.cpp` lines
962-995): after the scan, a nonzero counter adds one more error at the
last token (`tokens.back()`). -/
def checkIfEndifBalance (path : List Char) (tokens : List Token) :
    List ErrorObject :=
  match checkIfEndifBalanceGo tokens (tokens.length + 1) 0 0 [] with
  | (openIf, acc) =>
    if openIf ≠ 0 then
      acc ++ [⟨Lint.ERROR, (tokAt tokens (tokens.length - 1)).line_,
        "Unmatched #if/#endif.".toList, []⟩]
    else acc

/-- The invalid-input exception message of `checkCatchByReference`
(`src/flint/Checks.cpp` lines 729-731 and 767-769). -/
def invalidInputMsg (path : List Char) (line : Nat) : String :=
  String.mk path ++ ":" ++ toString line ++
    ": Invalid C++ source code, please compile before lint."

/-- The paren-balancing scan of `checkCatchByReference`
(`src/flint/Checks.cpp` lines 765-778): from the token after the caught
type's first identifier, find the `)` closing the catch clause,
balancing inner parens; running off the stream end is the hard
invalid-input failure. -/
def catchParenScan (path : List Char) (tokens : List Token)
    (fuel focal parens : Nat) : Except String Nat :=
  match fuel with
  | 0 => throw (invalidInputMsg path (tokAt tokens focal).line_)
  | fuel + 1 =>
    if focal < tokens.length then
      if (tokAt tokens focal).type_ = TK_RPAREN then
        if parens = 0 then pure focal
        else catchParenScan path tokens fuel (focal + 1) (parens - 1)
      else if (tokAt tokens focal).type_ = TK_LPAREN then
        catchParenScan path tokens fuel (focal + 1) (parens + 1)
      else catchParenScan path tokens fuel (focal + 1) parens
    else throw (invalidInputMsg path (tokAt tokens focal).line_)

/-- Handling of one `catch` clause by `checkCatchByReference`
(`src/flint/Checks.cpp` lines 727-803), with the cursor on the `catch`
token: a missing `(` right after `catch` is the hard invalid-input
failure; `catch (...)` is skipped outright; after optional
`const`/`typename`/`::`, a non-identifier draws the builtin-type
warning; otherwise the clause's closing `)` must be preceded by `&` or
`& identifier`, else the caught-by-value error is emitted (with the type
string the code reconstructs — note it reconstructs from absolute
position 2 of the stream). -/
def catchClauseAt (path : List Char) (tokens : List Token) (pos : Nat) :
    Except String (List ErrorObject) :=
  if (tokAt tokens (pos + 1)).type_ ≠ TK_LPAREN then
    throw (invalidInputMsg path (tokAt tokens (pos + 1)).line_)
  else if (tokAt tokens (pos + 2)).type_ = TK_ELLIPSIS then pure []
  else
    let f1 := if (tokAt tokens (pos + 2)).type_ = TK_CONST then pos + 3 else pos + 2
    let f2 := if (tokAt tokens f1).type_ = TK_TYPENAME then f1 + 1 else f1
    let f3 := if (tokAt tokens f2).type_ = TK_DOUBLE_COLON then f2 + 1 else f2
    if (tokAt tokens f3).type_ ≠ TK_IDENTIFIER then
      pure [⟨Lint.WARNING, (tokAt tokens f3).line_,
        "Symbol ".toList ++ (tokAt tokens f3).value_ ++
          " invalid in catch clause.".toList,
        "You may only catch user-defined types.".toList⟩]
    else do
      let closing ← catchParenScan path tokens (tokens.length + 1) (f3 + 1) 0
      if (tokAt tokens (closing - 1)).type_ = TK_AMPERSAND then pure []
      else if (tokAt tokens (closing - 1)).type_ = TK_IDENTIFIER ∧
          (tokAt tokens (closing - 2)).type_ = TK_AMPERSAND then pure []
      else
        pure [⟨Lint.ERROR, (tokAt tokens (closing - 1)).line_,
          "Symbol ".toList ++ (tokAt tokens (closing - 1)).value_ ++
            " of type ".toList ++
            (List.intercalate " ".toList
              ((List.range' 2 (closing - 1 - 1)).map fun j =>
                (tokAt tokens j).value_)) ++
            " caught by value.".toList,
          "Use catch by (preferably const) reference throughout.".toList⟩]

/-- The outer loop of `checkCatchByReference` (`src/flint/Checks.cpp`
lines 720-804): every position is visited; positions holding a `catch`
token are handled by `catchClauseAt`, whose diagnostics accumulate and
whose hard failure propagates. -/
def checkCatchByReferenceGo (path : List Char) (tokens : List Token)
    (fuel pos : Nat) (acc : List ErrorObject) :
    Except String (List ErrorObject) :=
  match fuel with
  | 0 => pure acc
  | fuel + 1 =>
    if pos < tokens.length then
      if (tokAt tokens pos).type_ = TK_CATCH then do
        let errs ← catchClauseAt path tokens pos
        checkCatchByReferenceGo path tokens fuel (pos + 1) (acc ++ errs)
      else checkCatchByReferenceGo path tokens fuel (pos + 1) acc
    else pure acc

/-- The `checkCatchByReference` check (`src/flint/Checks.cpp` lines
720-804). -/
def checkCatchByReference (path : List Char) (tokens : List Token) :
    Except String (List ErrorObject) :=
  checkCatchByReferenceGo path tokens (tokens.length + 1) 0 []

/-- Per-file diagnostics collection, from `src/flint/ErrorReport.hpp`
(`class ErrorFile`): the file's display path and the appended
`ErrorObject`s. The severity counters of the C++ class are determined by
`objs` (each `addError` appends and bumps the matching counter), so they
are not duplicated here. -/
structure ErrorFile : Type where
  path : List Char
  objs : List ErrorObject
  deriving DecidableEq, Repr

/-- The check sequence of `checkEntry` (`src/flint/Main.cpp` lines
76-123) restricted to the checks formalized in this development, in
Main.cpp's order: `checkIfEndifBalance` (line 79), then — unless `CMODE`
— `checkConstructors` (line 87) and `checkCatchByReference` (line 88).
The other checks Main.cpp runs are not formalized here; no claim depends
on them. A check's exception aborts the rest of the sequence. -/
def runEmbeddedChecks (cmode : Bool) (path : List Char)
    (tokens : List Token) : Except String (List ErrorObject) :=
  if cmode then pure (checkIfEndifBalance path tokens)
  else do
    let e1 := checkIfEndifBalance path tokens
    let e2 := checkConstructors path tokens
    let e3 ← checkCatchByReference path tokens
    pure (e1 ++ e2 ++ e3)

/-- The body of `checkEntry`'s `try` block (`src/flint/Main.cpp` lines
69-126) for one file: tokenize the contents (already read and passed
through `removeIgnoredCode`, both outside the modelled core) and run the
checks; any exception propagates. -/
def lintFileResult (cmode : Bool) (path contents : List Char) :
    Except String (List ErrorObject) := do
  let r ← tokenize contents
  runEmbeddedChecks cmode path r.tokens

/-- The `checkEntry` control flow for a regular file
(`src/flint/Main.cpp` lines 55-130): unknown-category files are skipped;
the `try` block runs tokenize, the checks and — still inside the `try` —
`errors.addFile(errorFile)`; the `catch` only prints a note to stderr,
so on an exception the file's already-accumulated diagnostics are
discarded and nothing is added to the report. The filesystem handling
(directory recursion, `.nolint`, unreadable files) is outside the
modelled core. -/
def checkEntry (cmode : Bool) (report : List ErrorFile)
    (path contents : List Char) : List ErrorFile :=
  if getFileCategory path = FileCategory.UNKNOWN then report
  else
    match lintFileResult cmode path contents with
    | .ok errs => report ++ [⟨path, errs⟩]
    | .error _ => report

/-- The `main` loop over the input paths (`src/flint/Main.cpp` lines
136-147): one `checkEntry` per file, accumulating one report. -/
def runFiles (cmode : Bool) (files : List (List Char × List Char)) :
    List ErrorFile :=
  files.foldl (fun report f => checkEntry cmode report f.1 f.2) []

/-- Convenience for concrete evaluations: the token stream `tokenize`
produces for a source string (empty when lexing fails; every use is
paired with a proof that lexing succeeded). -/
def tokensOf (s : String) : List Token :=
  match tokenize s.toList with
  | .ok r => r.tokens
  | .error _ => []

/-- Convenience: whether `tokenize` succeeds on a source string. -/
def lexOk (s : String) : Bool :=
  match tokenize s.toList with
  | .ok _ => true
  | .error _ => false

deriving instance DecidableEq for Except

/-- The token stream of the source `"<>"`: a single balanced `<`/`>`
pair. -/
def angleStream : List Token := tokensOf "<>"

/-- The token stream of the call region `"(a<b,c>d)"`: a comma inside a
`<...>` pair at paren-depth 1. -/
def callStream : List Token := tokensOf "(a<b,c>d)"

/-- C1: the claim says `skip_template_spec` on a balanced `<...>` returns
the position of the matching `>`, never EOF. On the three-token stream of
`"<>"` (`TK_LESS TK_GREATER TK_EOF`), the flint `skipTemplateSpec`
(`src/flint/Checks.cpp` lines 119-171) returns position 2 — the `TK_EOF`
— instead of position 1, because its loop starts on the leading `<` and
counts it a second time; the cxx version (`src/cxx/Checks.cpp` lines
96-144), which advances past the `<` before its loop, returns the
matching `>` at position 1 as the claim states. -/
theorem skipTemplateSpec_misses_matching_greater :
    lexOk "<>" = true ∧
    angleStream.length = 3 ∧
    (tokAt angleStream 0).type_ = TK_LESS ∧
    (tokAt angleStream 1).type_ = TK_GREATER ∧
    (tokAt angleStream 2).type_ = TK_EOF ∧
    (skipTemplateSpec angleStream 0).1 = 2 ∧
    (skipTemplateSpecCxx angleStream 0).1 = 1 := by decide

/-- C2 counterexample: on the token stream of `"(a<b,c>d)"` — an opening
`(` at 0, a `<` at 2, a comma at 4 inside the `<...>` pair at
paren-depth 1 — the flint `getRealArguments` (`src/flint/Checks.cpp`
lines 406-461, whose `TK_LESS` heuristic block is commented out) splits
at that comma and returns two argument spans, contradicting the claim
that commas inside such a `<...>` region do not split the argument. -/
theorem getRealArguments_splits_inside_template :
    lexOk "(a<b,c>d)" = true ∧
    (tokAt callStream 0).type_ = TK_LPAREN ∧
    (tokAt callStream 2).type_ = TK_LESS ∧
    (tokAt callStream 4).type_ = TK_COMMA ∧
    (tokAt callStream 6).type_ = TK_GREATER ∧
    getRealArguments callStream 0 = (true, 8, [⟨1, 4⟩, ⟨5, 8⟩]) := by decide

/-- C2 amended: in the cxx `getRealArguments` the claim holds — a `<`
seen during the scan triggers a nested `skipTemplateSpec`, so the comma
inside `"(a<b,c>d)"` does not separate arguments (one span) — while in
the flint `getRealArguments` the `<` heuristic is commented out and the
scan step at a `<` token just moves on, treating it as an ordinary
token, so such commas do split the argument. -/
theorem getRealArguments_less_heuristic_amended :
    getRealArgumentsCxx callStream 0 = some (8, [⟨1, 8⟩]) ∧
    ∀ (tokens : List Token) (fuel pos argStart : Nat) (parenCount : Int)
      (args : List Argument),
      (tokAt tokens pos).type_ = TK_LESS → pos < tokens.length →
      getRealArgumentsGo tokens (fuel + 1) pos argStart parenCount args =
        getRealArgumentsGo tokens fuel (pos + 1) argStart parenCount args := by
  refine ⟨by decide, ?_⟩
  intro tokens fuel pos argStart parenCount args hless hlt
  simp [getRealArgumentsGo, hless, hlt]

/-- C2 amended, witness: the flint scan step at the `<` of
`"(a<b,c>d)"` (position 2) is the identity on the scan state. -/
theorem getRealArguments_less_heuristic_amended_witness :
    (tokAt callStream 2).type_ = TK_LESS ∧ 2 < callStream.length ∧
    getRealArgumentsGo callStream 9 2 1 1 [] =
      getRealArgumentsGo callStream 8 3 1 1 [] :=
  ⟨by decide, by decide,
    getRealArguments_less_heuristic_amended.2 callStream 8 2 1 1 []
      (by decide) (by decide)⟩

/-- C4: the claim (and the spec scenario) says the if/endif balance
check yields exactly 1 diagnostic on `"#ifndef A\n#endif\n#endif\n"`.
The flint `checkIfEndifBalance` (`src/flint/Checks.cpp` lines 962-995)
yields 2: the "Unmatched #endif." error at line 3, and — because this
source dropped the `return` after the first error that the cxx original
has, while keeping the comment announcing it — a second
"Unmatched #if/#endif." error at the final token. -/
theorem checkIfEndifBalance_emits_two_diagnostics :
    lexOk "#ifndef A\n#endif\n#endif\n" = true ∧
    checkIfEndifBalance "test.cpp".toList
        (tokensOf "#ifndef A\n#endif\n#endif\n") =
      [⟨Lint.ERROR, 3, "Unmatched #endif.".toList, []⟩,
       ⟨Lint.ERROR, 4, "Unmatched #if/#endif.".toList, []⟩] := by decide

/-- C5: the claim says only the individual declarations preceded by
`explicit` (or `/* implicit */`, or the zero-argument and `(void)`
forms) are skipped, and every other candidate in the same class body —
including candidates after an `explicit`-marked declaration — is still
examined. In the flint `checkConstructors` (`src/flint/Checks.cpp`
lines 1065-1068) an `explicit` token runs `skipFunctionDeclaration` and
then `break`s out of the class-body scan, so the unmarked conversion
constructor `AA(int bad)` that follows an explicit one produces no
diagnostic, while the same constructor without the preceding
`explicit`-marked declaration produces one. -/
theorem checkConstructors_break_abandons_class_body :
    lexOk "class AA \x7b explicit AA(int); AA(int bad); \x7d;" = true ∧
    checkConstructors "test.cpp".toList
        (tokensOf "class AA \x7b explicit AA(int); AA(int bad); \x7d;") = [] ∧
    (checkConstructors "test.cpp".toList
        (tokensOf "class AA \x7b AA(int bad); \x7d;")).length = 1 := by decide

/-- C6: the catch-by-reference check yields 0 diagnostics on
`"try {} catch (Exception &) {}"` and exactly 1 diagnostic, an Error
(caught by value), on `"try {} catch (Exception e) {}"`. -/
theorem checkCatchByReference_scenarios :
    lexOk "try \x7b\x7d catch (Exception &) \x7b\x7d" = true ∧
    lexOk "try \x7b\x7d catch (Exception e) \x7b\x7d" = true ∧
    checkCatchByReference "test.cpp".toList
        (tokensOf "try \x7b\x7d catch (Exception &) \x7b\x7d") =
      Except.ok [] ∧
    (checkCatchByReference "test.cpp".toList
        (tokensOf "try \x7b\x7d catch (Exception e) \x7b\x7d")).map
        (fun l => l.map ErrorObject.type_) =
      Except.ok [Lint.ERROR] := by decide

/-- Reading a position at or past the end of the stream yields the
sentinel token. -/
theorem tokAt_eq_eofTok_of_ge {tokens : List Token} {pos : Nat}
    (h : tokens.length ≤ pos) : tokAt tokens pos = eofTok := by
  simp [tokAt, List.getD, List.getElem?_eq_none h]

/-- Element-wise characterization of `matchesFrom`. -/
theorem matchesFrom_iff (tokens : List Token) :
    ∀ (list : List TokenType) (pos : Nat),
    matchesFrom tokens pos list = true ↔
      ∀ k < list.length, (tokAt tokens (pos + k)).type_ = list.getD k TK_EOF := by
  intro list
  induction list with
  | nil => intro pos; simp [matchesFrom]
  | cons x xs ih =>
    intro pos
    simp only [matchesFrom, Bool.and_eq_true, decide_eq_true_eq, ih (pos + 1)]
    constructor
    · rintro ⟨hx, hrest⟩ k hk
      cases k with
      | zero => simpa using hx
      | succ k' =>
        have := hrest k' (by simpa using hk)
        simpa [Nat.add_comm, Nat.add_assoc, Nat.add_left_comm] using this
    · intro hall
      refine ⟨by simpa using hall 0 (by simp), fun k hk => ?_⟩
      have := hall (k + 1) (by simp only [List.length_cons]; omega)
      simpa [Nat.add_comm, Nat.add_assoc, Nat.add_left_comm] using this

/-- The cxx `atSequence` and the `find_if` body of the flint `atSequence`
are the same element-wise scan. -/
theorem atSequenceCxx_eq_matchesFrom (tokens : List Token) :
    ∀ (list : List TokenType) (pos : Nat),
    atSequenceCxx tokens pos list = matchesFrom tokens pos list := by
  intro list
  induction list with
  | nil => intro pos; rfl
  | cons x xs ih => intro pos; simp [atSequenceCxx, matchesFrom, ih (pos + 1)]

/-- C7 counterexample: the claim says `at_sequence` returns true whenever
all tokens match, including a match whose last element is just before the
final `EndOfFile`. On the stream of `"("` (`TK_LPAREN TK_EOF`), the
single-element sequence `[TK_LPAREN]` matches at position 0, yet the
flint `atSequence` returns false, because its guard
`pos + list.size() + 1 >= tokens.size()` (`src/flint/Checks.cpp` line
68) rejects any match ending in the last two stream positions. -/
theorem atSequence_false_on_match_before_eof :
    lexOk "(" = true ∧
    (tokensOf "(").length = 2 ∧
    (tokAt (tokensOf "(") 0).type_ = TK_LPAREN ∧
    (tokAt (tokensOf "(") 1).type_ = TK_EOF ∧
    matchesFrom (tokensOf "(") 0 [TK_LPAREN] = true ∧
    atSequence (tokensOf "(") 0 [TK_LPAREN] = false := by decide

/-- C7 amended: the flint `atSequence` returns true iff the tokens at
`pos` match `list` element by element AND `pos + |list| + 1 <
|tokens|`, i.e. the match ends at least two positions before the stream
end; matches running into the last two positions (such as one ending
just before the final `EndOfFile`) return false. The cxx `atSequence`
has no such bound: it is true iff the elements match (reading past the
end is modelled by the `TK_EOF` sentinel the code relies on). -/
theorem atSequence_amended :
    (∀ (tokens : List Token) (pos : Nat) (list : List TokenType),
      atSequence tokens pos list = true ↔
        pos + list.length + 1 < tokens.length ∧
        ∀ k < list.length,
          (tokAt tokens (pos + k)).type_ = list.getD k TK_EOF) ∧
    (∀ (tokens : List Token) (pos : Nat) (list : List TokenType),
      atSequenceCxx tokens pos list = true ↔
        ∀ k < list.length,
          (tokAt tokens (pos + k)).type_ = list.getD k TK_EOF) := by
  constructor
  · intro tokens pos list
    unfold atSequence
    split
    · constructor
      · intro hfalse; cases hfalse
      · rintro ⟨hlt, -⟩; omega
    · rw [matchesFrom_iff]
      constructor
      · intro hall; exact ⟨by omega, hall⟩
      · rintro ⟨-, hall⟩; exact hall
  · intro tokens pos list
    rw [atSequenceCxx_eq_matchesFrom, matchesFrom_iff]

/-- C10: a catch clause whose first token after the `(` is the ellipsis
(`catch (...)`) produces no diagnostic from the catch-by-reference
check: `catchClauseAt` yields no errors for it
(`src/flint/Checks.cpp` lines 734-737, the `continue`), and one step of
the check's outer scan from the `catch` behaves exactly like the scan
resumed at the next position with the diagnostics unchanged. -/
theorem catch_ellipsis_clause_skipped (path : List Char)
    (tokens : List Token) (pos : Nat) (acc : List ErrorObject) (fuel : Nat)
    (h1 : (tokAt tokens pos).type_ = TK_CATCH)
    (h2 : (tokAt tokens (pos + 1)).type_ = TK_LPAREN)
    (h3 : (tokAt tokens (pos + 2)).type_ = TK_ELLIPSIS) :
    catchClauseAt path tokens pos = Except.ok [] ∧
    checkCatchByReferenceGo path tokens (fuel + 1) pos acc =
      checkCatchByReferenceGo path tokens fuel (pos + 1) acc := by
  have hce : catchClauseAt path tokens pos = Except.ok [] := by
    simp only [catchClauseAt, h2, h3]
    rfl
  have hlt : pos < tokens.length := by
    by_contra hge
    have : tokAt tokens (pos + 2) = eofTok :=
      tokAt_eq_eofTok_of_ge (by omega)
    rw [this] at h3
    exact absurd h3 (by decide)
  refine ⟨hce, ?_⟩
  simp [checkCatchByReferenceGo, hlt, h1, hce, Bind.bind, Except.bind]

/-- C10 witness: the ellipsis clause of `"catch (...) {}"` at position 0
is skipped with no diagnostic. -/
theorem catch_ellipsis_clause_skipped_witness :
    (tokAt (tokensOf "catch (...) \x7b\x7d") 0).type_ = TK_CATCH ∧
    (tokAt (tokensOf "catch (...) \x7b\x7d") 1).type_ = TK_LPAREN ∧
    (tokAt (tokensOf "catch (...) \x7b\x7d") 2).type_ = TK_ELLIPSIS ∧
    catchClauseAt [] (tokensOf "catch (...) \x7b\x7d") 0 = Except.ok [] ∧
    checkCatchByReferenceGo [] (tokensOf "catch (...) \x7b\x7d") 8 0 [] =
      checkCatchByReferenceGo [] (tokensOf "catch (...) \x7b\x7d") 7 1 [] :=
  ⟨by decide, by decide, by decide,
    (catch_ellipsis_clause_skipped [] (tokensOf "catch (...) \x7b\x7d") 0 [] 7
      (by decide) (by decide) (by decide)).1,
    (catch_ellipsis_clause_skipped [] (tokensOf "catch (...) \x7b\x7d") 0 [] 7
      (by decide) (by decide) (by decide)).2⟩

/-- C8 counterexample: the claim says a hard failure of the
catch-by-reference check does not stop the other checks on the file and
that already-recorded diagnostics are still reported. On the file
`"#endif\ncatch x"` (path `a.cpp`), the if/endif balance check records
2 diagnostics, `checkCatchByReference` throws the invalid-input
exception for the `catch` not followed by `(`, and `checkEntry`
(`src/flint/Main.cpp` lines 69-130, whose `errors.addFile` sits inside
the `try` block) reports nothing for the file: the recorded diagnostics
are discarded. -/
theorem checkEntry_discards_recorded_diagnostics :
    lexOk "#endif\ncatch x" = true ∧
    (checkIfEndifBalance "a.cpp".toList (tokensOf "#endif\ncatch x")).length = 2 ∧
    checkCatchByReference "a.cpp".toList (tokensOf "#endif\ncatch x") =
      Except.error
        "a.cpp:2: Invalid C++ source code, please compile before lint." ∧
    checkEntry false [] "a.cpp".toList "#endif\ncatch x".toList = [] := by decide

/-- C8 amended: when the per-file pipeline throws (for instance the
catch-by-reference hard failure on a `catch` not followed by `(`), the
whole file is dropped: the remaining checks of the sequence never run
(the exception aborts the `Except` sequence of `lintFileResult`), the
file's already-recorded diagnostics are not reported (`checkEntry`
leaves the report unchanged, since `errors.addFile` sits inside the
`try`), and only the processing of other files continues
(`runFiles` of the remaining files is unaffected). -/
theorem checkEntry_failure_drops_file (cmode : Bool)
    (report : List ErrorFile) (path contents : List Char) (msg : String)
    (hfail : lintFileResult cmode path contents = Except.error msg) :
    checkEntry cmode report path contents = report ∧
    ∀ files, runFiles cmode ((path, contents) :: files) = runFiles cmode files := by
  have hgen : ∀ rep, checkEntry cmode rep path contents = rep := by
    intro rep
    unfold checkEntry
    split
    · rfl
    · rw [hfail]
  refine ⟨hgen report, fun files => ?_⟩
  simp [runFiles, List.foldl, hgen]

/-- C8 amended, witness: the failing file `"#endif\ncatch x"` leaves the
report untouched and does not disturb the processing of a following
file. -/
theorem checkEntry_failure_drops_file_witness :
    lintFileResult false "a.cpp".toList "#endif\ncatch x".toList =
      Except.error
        "a.cpp:2: Invalid C++ source code, please compile before lint." ∧
    checkEntry false [⟨"ok.cpp".toList, []⟩] "a.cpp".toList
      "#endif\ncatch x".toList = [⟨"ok.cpp".toList, []⟩] ∧
    runFiles false
        [("a.cpp".toList, "#endif\ncatch x".toList),
         ("b.cpp".toList, "int x;".toList)] =
      runFiles false [("b.cpp".toList, "int x;".toList)] :=
  ⟨by decide,
    (checkEntry_failure_drops_file false [⟨"ok.cpp".toList, []⟩]
      "a.cpp".toList "#endif\ncatch x".toList
      "a.cpp:2: Invalid C++ source code, please compile before lint."
      (by decide)).1,
    (checkEntry_failure_drops_file false [] "a.cpp".toList
      "#endif\ncatch x".toList
      "a.cpp:2: Invalid C++ source code, please compile before lint."
      (by decide)).2
      [("b.cpp".toList, "int x;".toList)]⟩

/-- Concatenation distributes over appending token lists. -/
theorem concatToks_append (l1 l2 : List Token) :
    concatToks (l1 ++ l2) = concatToks l1 ++ concatToks l2 := by
  simp [concatToks]

/-- Trivia-plus-lexeme concatenation invariant of the `tokenize` loop:
every iteration moves the consumed characters either into the pending
whitespace or into the emitted token, so the concatenation over the
final token list is always a prefix of (already-concatenated output) ++
(pending whitespace) ++ (unconsumed input). The final `TK_EOF` carries
empty trivia on the normal exit (dropping the pending whitespace) and
the pending whitespace on the embedded-NUL exit, so the result is a
prefix rather than always the whole text. -/
theorem tokenizeGo_prefix :
    ∀ (fuel : Nat) (rest : List Char) (line : Nat) (ws : List Char)
      (output : List Token) (structures : List Nat) (res : TokenizeResult),
    tokenizeGo fuel rest line ws output structures = Except.ok res →
    concatToks res.tokens <+: concatToks output ++ ws ++ rest := by
  intro fuel
  induction fuel with
  | zero =>
    intro rest line ws output structures res h
    exact absurd h (by simp [tokenizeGo, throw, throwThe, MonadExceptOf.throw])
  | succ fuel ih =>
    intro rest line ws output structures res h
    rw [tokenizeGo] at h
    split at h
    · simp only [pure, Except.pure, Except.ok.injEq] at h
      subst h
      rw [concatToks_append,
        show concatToks [⟨TK_EOF, [], [], line⟩] = [] from by simp [concatToks],
        List.append_nil, List.append_assoc]
      exact List.prefix_append _ _
    · cases hstep : lexStep rest line (output.getLast?.map Token.type_) with
      | fail msg =>
        rw [hstep] at h
        exact absurd h (by simp [throw, throwThe, MonadExceptOf.throw])
      | finish =>
        rw [hstep] at h
        simp only [pure, Except.pure, Except.ok.injEq] at h
        subst h
        rw [concatToks_append,
          show concatToks [⟨TK_EOF, [], ws, line⟩] = ws ++ [] from by
            simp [concatToks],
          List.append_nil, List.append_assoc, ← List.append_assoc]
        exact List.prefix_append _ _
      | emit t len line' =>
        rw [hstep] at h
        have hih := ih _ _ _ _ _ _ h
        rw [concatToks_append,
          show concatToks [⟨t, rest.take len, ws, line'⟩] = ws ++ rest.take len from by
            simp [concatToks]] at hih
        calc concatToks res.tokens
            <+: concatToks output ++ (ws ++ rest.take len) ++ [] ++ rest.drop len := hih
          _ = concatToks output ++ ws ++ rest := by
              simp only [List.append_nil, List.append_assoc,
                List.take_append_drop]
      | skip len line' =>
        rw [hstep] at h
        have hih := ih _ _ _ _ _ _ h
        calc concatToks res.tokens
            <+: concatToks output ++ (ws ++ rest.take len) ++ rest.drop len := hih
          _ = concatToks output ++ ws ++ rest := by
              simp only [List.append_assoc, List.take_append_drop]

/-- C3 counterexample: the claim says the trivia-plus-lexeme
concatenation reproduces the source exactly, including inputs ending in
whitespace. On `"a "` the lexer succeeds, but the concatenation is
`"a"`: the trailing space was pending whitespace when the loop ended,
and the final `TK_EOF` is pushed with empty trivia
(`src/flint/Tokenizer.cpp` line 564 passes `""`), so the trailing
trivia is lost and the concatenation does not reproduce the input. -/
theorem tokenize_roundtrip_fails_on_trailing_space :
    tokenize "a ".toList =
      Except.ok ⟨[⟨TK_IDENTIFIER, ['a'], [], 1⟩, ⟨TK_EOF, [], [], 1⟩], [], 1⟩ ∧
    concatToks [⟨TK_IDENTIFIER, ['a'], [], 1⟩, ⟨TK_EOF, [], [], 1⟩] = ['a'] ∧
    (['a'] : List Char) ≠ "a ".toList := by decide

/-- C3 amended: for every source text on which the lexer succeeds,
concatenating each token's preceding trivia followed by its lexeme in
stream order (the final `EndOfFile`'s synthetic lexeme is empty)
reproduces a prefix of the original text — the text up to the end of
the last emitted token. It reproduces the text exactly when nothing
trails the last token; trailing whitespace/comments (dropped with the
final `TK_EOF`'s empty trivia) and anything from an embedded NUL onward
are not reproduced. -/
theorem tokenize_roundtrip_prefix (input : List Char) (res : TokenizeResult)
    (h : tokenize input = Except.ok res) :
    concatToks res.tokens <+: input := by
  have := tokenizeGo_prefix (input.length + 2) input 1 [] [] [] res h
  simpa [concatToks] using this

/-- C3 amended, witness: on `"a"` the concatenation is a prefix of the
input (here the whole input). -/
theorem tokenize_roundtrip_prefix_witness :
    concatToks
        (TokenizeResult.tokens
          ⟨[⟨TK_IDENTIFIER, ['a'], [], 1⟩, ⟨TK_EOF, [], [], 1⟩], [], 1⟩) <+:
      "a".toList :=
  tokenize_roundtrip_prefix "a".toList
    ⟨[⟨TK_IDENTIFIER, ['a'], [], 1⟩, ⟨TK_EOF, [], [], 1⟩], [], 1⟩ (by decide)

/-- The delimiter scan only ever increments the line counter. -/
theorem munchDelimGo_line_mono (l : List Char) (se : Char) (msg : String) :
    ∀ (fuel i line : Nat) (r : Nat × Nat),
    munchDelimGo l se msg fuel i line = Except.ok r → line ≤ r.2 := by
  intro fuel
  induction fuel with
  | zero =>
    intro i line r h
    exact absurd h (by simp [munchDelimGo, throw, throwThe, MonadExceptOf.throw])
  | succ fuel ih =>
    intro i line r h
    rw [munchDelimGo] at h
    repeat' split at h
    all_goals first
      | exact absurd h (by simp [throw, throwThe, MonadExceptOf.throw])
      | (simp only [pure, Except.pure, Except.ok.injEq] at h; subst h; omega)
      | (have hm := ih _ _ _ h; omega)

/-- The block-comment scan only ever increments the line counter. -/
theorem munchCommentGo_line_mono (l : List Char) :
    ∀ (fuel i line : Nat) (r : Nat × Nat),
    munchCommentGo l fuel i line = Except.ok r → line ≤ r.2 := by
  intro fuel
  induction fuel with
  | zero =>
    intro i line r h
    exact absurd h (by simp [munchCommentGo, throw, throwThe, MonadExceptOf.throw])
  | succ fuel ih =>
    intro i line r h
    rw [munchCommentGo] at h
    repeat' split at h
    all_goals first
      | exact absurd h (by simp [throw, throwThe, MonadExceptOf.throw])
      | (simp only [pure, Except.pure, Except.ok.injEq] at h; subst h; omega)
      | (have hm := ih _ _ _ h; omega)

/-- The single-line-comment scan only ever increments the line
counter. -/
theorem munchSLCGo_line_mono (l : List Char) :
    ∀ (fuel i line : Nat), line ≤ (munchSLCGo l fuel i line).2 := by
  intro fuel
  induction fuel with
  | zero => intro i line; simp [munchSLCGo]
  | succ fuel ih =>
    intro i line
    rw [munchSLCGo]
    repeat' split
    all_goals first
      | exact le_trans (Nat.le_succ line) (ih (i + 1) (line + 1))
      | exact Nat.le_succ line
      | exact ih (i + 1) line
      | exact le_refl line

/-- The string-literal arm: an emitted token's line never lies below the
current line counter. -/
theorem lexStringLit_emit_mono (rest : List Char) (line : Nat) (b : Bool)
    (t : TokenType) (len line' : Nat)
    (h : lexStringLit rest line b = .emit t len line') : line ≤ line' := by
  unfold lexStringLit at h
  repeat' split at h
  all_goals cases h <;> exact munchDelimGo_line_mono _ _ _ _ _ _ _ (by assumption)

/-- The string-literal arm produces no trivia action. -/
theorem lexStringLit_skip_mono (rest : List Char) (line : Nat) (b : Bool)
    (len line' : Nat)
    (h : lexStringLit rest line b = .skip len line') : line ≤ line' := by
  unfold lexStringLit at h
  repeat' split at h
  all_goals cases h

/-- The slash arm: an emitted token keeps the current line. -/
theorem lexSlash_emit_mono (rest : List Char) (line : Nat)
    (t : TokenType) (len line' : Nat)
    (h : lexSlash rest line = .emit t len line') : line ≤ line' := by
  unfold lexSlash at h
  repeat' split at h
  all_goals cases h <;> omega

/-- The slash arm: a comment trivia run never decreases the line
counter. -/
theorem lexSlash_skip_mono (rest : List Char) (line : Nat)
    (len line' : Nat)
    (h : lexSlash rest line = .skip len line') : line ≤ line' := by
  unfold lexSlash at h
  repeat' split at h
  all_goals
    cases h <;>
      first
        | exact munchCommentGo_line_mono _ _ _ _ _ (by assumption)
        | exact munchSLCGo_line_mono rest (rest.length + 2) 2 line

/-- The number arm: an emitted token keeps the current line. -/
theorem lexNumber_emit_mono (rest : List Char) (line : Nat)
    (t : TokenType) (len line' : Nat)
    (h : lexNumber rest line = .emit t len line') : line ≤ line' := by
  unfold lexNumber at h
  repeat' split at h
  all_goals cases h <;> omega

/-- The number arm produces no trivia action. -/
theorem lexNumber_skip_mono (rest : List Char) (line : Nat)
    (len line' : Nat)
    (h : lexNumber rest line = .skip len line') : line ≤ line' := by
  unfold lexNumber at h
  repeat' split at h
  all_goals cases h

/-- The character-literal arm: an emitted token's line never lies below
the current line counter. -/
theorem lexCharLit_emit_mono (rest : List Char) (line : Nat)
    (t : TokenType) (len line' : Nat)
    (h : lexCharLit rest line = .emit t len line') : line ≤ line' := by
  unfold lexCharLit at h
  repeat' split at h
  all_goals cases h <;> exact munchDelimGo_line_mono _ _ _ _ _ _ _ (by assumption)

/-- The character-literal arm produces no trivia action. -/
theorem lexCharLit_skip_mono (rest : List Char) (line : Nat)
    (len line' : Nat)
    (h : lexCharLit rest line = .skip len line') : line ≤ line' := by
  unfold lexCharLit at h
  repeat' split at h
  all_goals cases h

/-- The identifier arm: an emitted token keeps the current line. -/
theorem lexIdentKw_emit_mono (rest : List Char) (line : Nat)
    (t : TokenType) (len line' : Nat)
    (h : lexIdentKw rest line = .emit t len line') : line ≤ line' := by
  unfold lexIdentKw at h
  repeat' split at h
  all_goals cases h <;> omega

/-- The identifier arm produces no trivia action. -/
theorem lexIdentKw_skip_mono (rest : List Char) (line : Nat)
    (len line' : Nat)
    (h : lexIdentKw rest line = .skip len line') : line ≤ line' := by
  unfold lexIdentKw at h
  repeat' split at h
  all_goals cases h

/-- The preprocessor arm: an emitted token keeps the current line. -/
theorem lexPound_emit_mono (rest : List Char) (line : Nat)
    (t : TokenType) (len line' : Nat)
    (h : lexPound rest line = .emit t len line') : line ≤ line' := by
  unfold lexPound at h
  split at h
  all_goals cases h <;> omega

/-- The preprocessor arm produces no trivia action. -/
theorem lexPound_skip_mono (rest : List Char) (line : Nat)
    (len line' : Nat)
    (h : lexPound rest line = .skip len line') : line ≤ line' := by
  unfold lexPound at h
  split at h
  all_goals cases h

/-- `actionLineLB` distributes over a conditional. -/
theorem actionLineLB_ite (line : Nat) (c : Prop) [Decidable c]
    (a b : LexAction) (ha : actionLineLB line a) (hb : actionLineLB line b) :
    actionLineLB line (if c then a else b) := by
  by_cases h : c
  · rw [if_pos h]; exact ha
  · rw [if_neg h]; exact hb

/-- The string-literal arm only produces actions respecting the line
lower bound. -/
theorem lexStringLit_lineLB (rest : List Char) (line : Nat) (b : Bool) :
    actionLineLB line (lexStringLit rest line b) := by
  cases hs : lexStringLit rest line b with
  | fail msg => exact True.intro
  | finish => exact True.intro
  | emit t len l => exact lexStringLit_emit_mono rest line b t len l hs
  | skip len l => exact lexStringLit_skip_mono rest line b len l hs

/-- The slash arm only produces actions respecting the line lower
bound. -/
theorem lexSlash_lineLB (rest : List Char) (line : Nat) :
    actionLineLB line (lexSlash rest line) := by
  cases hs : lexSlash rest line with
  | fail msg => exact True.intro
  | finish => exact True.intro
  | emit t len l => exact lexSlash_emit_mono rest line t len l hs
  | skip len l => exact lexSlash_skip_mono rest line len l hs

/-- The number arm only produces actions respecting the line lower
bound. -/
theorem lexNumber_lineLB (rest : List Char) (line : Nat) :
    actionLineLB line (lexNumber rest line) := by
  cases hs : lexNumber rest line with
  | fail msg => exact True.intro
  | finish => exact True.intro
  | emit t len l => exact lexNumber_emit_mono rest line t len l hs
  | skip len l => exact lexNumber_skip_mono rest line len l hs

/-- The character-literal arm only produces actions respecting the line
lower bound. -/
theorem lexCharLit_lineLB (rest : List Char) (line : Nat) :
    actionLineLB line (lexCharLit rest line) := by
  cases hs : lexCharLit rest line with
  | fail msg => exact True.intro
  | finish => exact True.intro
  | emit t len l => exact lexCharLit_emit_mono rest line t len l hs
  | skip len l => exact lexCharLit_skip_mono rest line len l hs

/-- The identifier arm only produces actions respecting the line lower
bound. -/
theorem lexIdentKw_lineLB (rest : List Char) (line : Nat) :
    actionLineLB line (lexIdentKw rest line) := by
  cases hs : lexIdentKw rest line with
  | fail msg => exact True.intro
  | finish => exact True.intro
  | emit t len l => exact lexIdentKw_emit_mono rest line t len l hs
  | skip len l => exact lexIdentKw_skip_mono rest line len l hs

/-- The preprocessor arm only produces actions respecting the line lower
bound. -/
theorem lexPound_lineLB (rest : List Char) (line : Nat) :
    actionLineLB line (lexPound rest line) := by
  cases hs : lexPound rest line with
  | fail msg => exact True.intro
  | finish => exact True.intro
  | emit t len l => exact lexPound_emit_mono rest line t len l hs
  | skip len l => exact lexPound_skip_mono rest line len l hs

set_option maxHeartbeats 1600000 in
/-- Every action of the `tokenize` loop body respects the line lower
bound: the switch is a chain of conditionals whose leaves either emit at
the current line or defer to an arm lemma. -/
theorem lexStep_lineLB (rest : List Char) (line : Nat)
    (lastTy : Option TokenType) :
    actionLineLB line (lexStep rest line lastTy) := by
  unfold lexStep
  exact
    (actionLineLB_ite _ _ _ _ (lexStringLit_lineLB rest line true) (actionLineLB_ite _ _ _ _ (Nat.le_refl line) (actionLineLB_ite _ _ _ _ (Nat.le_refl line) (actionLineLB_ite _ _ _ _ (Nat.le_refl line) (actionLineLB_ite _ _ _ _ (Nat.le_refl line) (actionLineLB_ite _ _ _ _ (Nat.le_refl line) (actionLineLB_ite _ _ _ _ (Nat.le_refl line) (actionLineLB_ite _ _ _ _ (Nat.le_refl line) (actionLineLB_ite _ _ _ _ (Nat.le_refl line) (actionLineLB_ite _ _ _ _ (Nat.le_refl line) (actionLineLB_ite _ _ _ _ (Nat.le_refl line) (actionLineLB_ite _ _ _ _ (actionLineLB_ite _ _ _ _ (Nat.le_refl line) (Nat.le_refl line)) (actionLineLB_ite _ _ _ _ (actionLineLB_ite _ _ _ _ (Nat.le_refl line) (Nat.le_refl line)) (actionLineLB_ite _ _ _ _ (actionLineLB_ite _ _ _ _ (Nat.le_refl line) (Nat.le_refl line)) (actionLineLB_ite _ _ _ _ (actionLineLB_ite _ _ _ _ (Nat.le_refl line) (Nat.le_refl line)) (actionLineLB_ite _ _ _ _ (actionLineLB_ite _ _ _ _ (Nat.le_refl line) (Nat.le_refl line)) (actionLineLB_ite _ _ _ _ (actionLineLB_ite _ _ _ _ (Nat.le_refl line) (Nat.le_refl line)) (actionLineLB_ite _ _ _ _ (actionLineLB_ite _ _ _ _ (Nat.le_refl line) (actionLineLB_ite _ _ _ _ (Nat.le_refl line) (Nat.le_refl line))) (actionLineLB_ite _ _ _ _ (actionLineLB_ite _ _ _ _ (Nat.le_refl line) (actionLineLB_ite _ _ _ _ (Nat.le_refl line) (Nat.le_refl line))) (actionLineLB_ite _ _ _ _ (actionLineLB_ite _ _ _ _ (Nat.le_refl line) (actionLineLB_ite _ _ _ _ (Nat.le_refl line) (Nat.le_refl line))) (actionLineLB_ite _ _ _ _ (actionLineLB_ite _ _ _ _ (Nat.le_refl line) (actionLineLB_ite _ _ _ _ (actionLineLB_ite _ _ _ _ (Nat.le_refl line) (Nat.le_refl line)) (Nat.le_refl line))) (actionLineLB_ite _ _ _ _ (actionLineLB_ite _ _ _ _ (Nat.le_refl line) (actionLineLB_ite _ _ _ _ (actionLineLB_ite _ _ _ _ (Nat.le_refl line) (Nat.le_refl line)) (Nat.le_refl line))) (actionLineLB_ite _ _ _ _ (lexSlash_lineLB rest line) (actionLineLB_ite _ _ _ _ (actionLineLB_ite _ _ _ _ (Nat.le_succ line) True.intro) (actionLineLB_ite _ _ _ _ (Nat.le_succ line) (actionLineLB_ite _ _ _ _ (Nat.le_refl line) (actionLineLB_ite _ _ _ _ (actionLineLB_ite _ _ _ _ (Nat.le_refl line) (actionLineLB_ite _ _ _ _ (Nat.le_refl line) (actionLineLB_ite _ _ _ _ (actionLineLB_ite _ _ _ _ (Nat.le_refl line) (Nat.le_refl line)) (Nat.le_refl line)))) (actionLineLB_ite _ _ _ _ (Nat.le_refl line) (actionLineLB_ite _ _ _ _ True.intro (actionLineLB_ite _ _ _ _ True.intro (actionLineLB_ite _ _ _ _ (lexNumber_lineLB rest line) (actionLineLB_ite _ _ _ _ (actionLineLB_ite _ _ _ _ (lexNumber_lineLB rest line) (actionLineLB_ite _ _ _ _ (Nat.le_refl line) (actionLineLB_ite _ _ _ _ (Nat.le_refl line) (Nat.le_refl line)))) (actionLineLB_ite _ _ _ _ (lexCharLit_lineLB rest line) (actionLineLB_ite _ _ _ _ (lexStringLit_lineLB rest line false) (actionLineLB_ite _ _ _ _ (lexPound_lineLB rest line) (actionLineLB_ite _ _ _ _ (Nat.le_refl line) (actionLineLB_ite _ _ _ _ (lexIdentKw_lineLB rest line) True.intro)))))))))))))))))))))))))))))))))))))

/-- An emitted token's line never lies below the current line counter. -/
theorem lexStep_emit_mono (rest : List Char) (line : Nat)
    (lastTy : Option TokenType) (t : TokenType) (len line' : Nat)
    (h : lexStep rest line lastTy = .emit t len line') : line ≤ line' := by
  have hl := lexStep_lineLB rest line lastTy
  rw [h] at hl
  exact hl

/-- A trivia run's line never lies below the current line counter. -/
theorem lexStep_skip_mono (rest : List Char) (line : Nat)
    (lastTy : Option TokenType) (len line' : Nat)
    (h : lexStep rest line lastTy = .skip len line') : line ≤ line' := by
  have hl := lexStep_lineLB rest line lastTy
  rw [h] at hl
  exact hl

/-- Structural invariant of the `tokenize` loop: if every token already
emitted is at or below the current line and the emitted lines are
non-decreasing so far, then on success the final token list is
non-empty, ends in `TK_EOF`, and has non-decreasing line numbers —
both exits append a `TK_EOF` at the current line, and every loop-body
action moves the line counter monotonically. -/
theorem tokenizeGo_wellformed :
    ∀ (fuel : Nat) (rest : List Char) (line : Nat) (ws : List Char)
      (output : List Token) (structures : List Nat) (res : TokenizeResult),
    tokenizeGo fuel rest line ws output structures = Except.ok res →
    (∀ t ∈ output, t.line_ ≤ line) →
    List.Chain' (fun a b => a.line_ ≤ b.line_) output →
    res.tokens ≠ [] ∧ (res.tokens.getLastD eofTok).type_ = TK_EOF ∧
      List.Chain' (fun a b => a.line_ ≤ b.line_) res.tokens := by
  intro fuel
  induction fuel with
  | zero =>
    intro rest line ws output structures res h
    exact absurd h (by simp [tokenizeGo, throw, throwThe, MonadExceptOf.throw])
  | succ fuel ih =>
    intro rest line ws output structures res h hub hchain
    rw [tokenizeGo] at h
    split at h
    · simp only [pure, Except.pure, Except.ok.injEq] at h
      subst h
      refine ⟨by simp, by simp, ?_⟩
      rw [List.chain'_append]
      refine ⟨hchain, List.chain'_singleton _, ?_⟩
      intro x hx y hy
      simp only [List.head?_cons, Option.mem_def, Option.some.injEq] at hy
      subst hy
      exact hub x (List.mem_of_mem_getLast? hx)
    · cases hstep : lexStep rest line (output.getLast?.map Token.type_) with
      | fail msg =>
        rw [hstep] at h
        exact absurd h (by simp [throw, throwThe, MonadExceptOf.throw])
      | finish =>
        rw [hstep] at h
        simp only [pure, Except.pure, Except.ok.injEq] at h
        subst h
        refine ⟨by simp, by simp, ?_⟩
        rw [List.chain'_append]
        refine ⟨hchain, List.chain'_singleton _, ?_⟩
        intro x hx y hy
        simp only [List.head?_cons, Option.mem_def, Option.some.injEq] at hy
        subst hy
        exact hub x (List.mem_of_mem_getLast? hx)
      | emit t len line' =>
        rw [hstep] at h
        have hmono := lexStep_emit_mono _ _ _ _ _ _ hstep
        refine ih _ _ _ _ _ _ h ?_ ?_
        · intro tk htk
          rcases List.mem_append.mp htk with hin | hin
          · exact Nat.le_trans (hub tk hin) hmono
          · simp only [List.mem_singleton] at hin
            subst hin
            exact Nat.le_refl _
        · rw [List.chain'_append]
          refine ⟨hchain, List.chain'_singleton _, ?_⟩
          intro x hx y hy
          simp only [List.head?_cons, Option.mem_def, Option.some.injEq] at hy
          subst hy
          exact Nat.le_trans (hub x (List.mem_of_mem_getLast? hx)) hmono
      | skip len line' =>
        rw [hstep] at h
        have hmono := lexStep_skip_mono _ _ _ _ _ hstep
        refine ih _ _ _ _ _ _ h ?_ hchain
        intro tk htk
        exact Nat.le_trans (hub tk htk) hmono

/-- C9: for every input text on which `tokenize` succeeds, the produced
token sequence is non-empty, its last element has kind `TK_EOF`, and
the line numbers attached to the tokens are monotonically non-decreasing
across the sequence. -/
theorem tokenize_stream_invariants (input : List Char) (res : TokenizeResult)
    (h : tokenize input = Except.ok res) :
    res.tokens ≠ [] ∧ (res.tokens.getLastD eofTok).type_ = TK_EOF ∧
      List.Chain' (fun a b => a.line_ ≤ b.line_) res.tokens :=
  tokenizeGo_wellformed _ _ _ _ _ _ _ h (by simp) (by simp)

/-- C9 witness: on the input `"a"` the lexer succeeds with an
identifier followed by `TK_EOF`, and the invariants hold of that
stream. -/
theorem tokenize_stream_invariants_witness :
    (⟨[⟨TK_IDENTIFIER, ['a'], [], 1⟩, ⟨TK_EOF, [], [], 1⟩], [], 1⟩ :
        TokenizeResult).tokens ≠ [] ∧
    ((⟨[⟨TK_IDENTIFIER, ['a'], [], 1⟩, ⟨TK_EOF, [], [], 1⟩], [], 1⟩ :
        TokenizeResult).tokens.getLastD eofTok).type_ = TK_EOF ∧
    List.Chain' (fun a b => a.line_ ≤ b.line_)
      (⟨[⟨TK_IDENTIFIER, ['a'], [], 1⟩, ⟨TK_EOF, [], [], 1⟩], [], 1⟩ :
        TokenizeResult).tokens :=
  tokenize_stream_invariants "a".toList
    ⟨[⟨TK_IDENTIFIER, ['a'], [], 1⟩, ⟨TK_EOF, [], [], 1⟩], [], 1⟩ (by decide)

end Flint
